import Mathlib

/-!
Verification development for the attribution engine
(`src/AttributionEngine.py`).  The Python code is shallowly embedded:

* dynamically-typed "string or None" values become `Option String`
  (Python `None` is `none`; truthiness of a string is nonemptiness);
* pandas DataFrames become `List` of structures, with the row operations
  of the source translated to list operations;
* monetary floats become `Int` (exact amounts; no claim depends on
  fractional arithmetic);
* an exception raised while processing one order becomes `Except`.

Python string primitives (`in`, `.lower()`, `.strip()`, `.startswith`)
are re-implemented on `List Char` so that every definition evaluates
inside the kernel.
-/

/-- Auxiliary scan: is `pat` an infix of the character list? (Python `pat in s`). -/
def strContainsAux (pat : List Char) : List Char → Bool
  | [] => pat.isPrefixOf []
  | c :: rest => pat.isPrefixOf (c :: rest) || strContainsAux pat rest

/-- Python substring test `pat in s`. -/
def strContains (s pat : String) : Bool :=
  strContainsAux pat.data s.data

/-- Python `s.lower()` (ASCII case, as used by the source data). -/
def sLower (s : String) : String :=
  String.mk (s.data.map Char.toLower)

/-- Python `s.strip()`. -/
def sStrip (s : String) : String :=
  String.mk (((s.data.dropWhile Char.isWhitespace).reverse.dropWhile Char.isWhitespace).reverse)

/-- Python `s.startswith(pat)`. -/
def sStartsWith (s pat : String) : Bool :=
  pat.data.isPrefixOf s.data

/-- Embeds `str(x).lower().strip() if x else ''` from `determine_channel`
(lines 613-617).  For `some ""` Python takes the `else ''` branch, which
yields the same value as lowering and stripping the empty string. -/
def lowerStrip : Option String → String
  | none => ""
  | some s => sStrip (sLower s)

/-- Keyword lists of `determine_channel` (source lines 637, 644, 665, 674, 679). -/
def organicIndicators : List String := ["organic", "search", "natural", "seo", "unpaid"]

def searchEngines : List String := ["bing", "yahoo", "duckduckgo", "baidu", "yandex", "qwant"]

def metaIndicators : List String := ["facebook", "fb", "instagram", "ig", "meta", "igshopping"]

def googleIndicators : List String := ["google", "an"]

def directIndicators : List String := ["direct", "none", "null", ""]

/-- Python `campaign_lower and campaign_lower not in ['', 'null', 'none']`
(and the analogous tests on source/medium). -/
def nontrivial (x : String) : Bool :=
  x != "" && !(["", "null", "none"].contains x)

/-- Medium-pattern heuristics of `determine_channel` (source lines 710-732)
followed by the final fallback (lines 734-746).  The Python block guards all
five medium cases by `medium_lower and medium_lower not in [...]` and falls
through to the fallback when no case matches; the guard is repeated on each
case here, which preserves the decision order exactly. -/
def dcMediumBlock (sl ml : String) : String :=
  if nontrivial ml && ["search", "organic", "natural", "seo", "unpaid"].contains ml then "Organic"
  else if nontrivial ml && ["social", "social-media", "socialmedia"].contains ml then "Meta"
  else if nontrivial ml && ml == "referral" then "Organic"
  else if nontrivial ml && ml == "email" then "Direct"
  else if nontrivial ml && ml == "cpc" then
    if strContains sl "google" then "Google"
    else if metaIndicators.any (fun p => strContains sl p) then "Meta"
    else "Google"
  else if sl == "" || ["", "null", "none"].contains sl then "Direct"
  else "Organic"

/-- Source-domain analysis of `determine_channel` (source lines 696-708): a
nontrivial source that looks like a domain is classified by the engine or
platform tokens it contains; otherwise the check falls through to the
medium-pattern block. -/
def dcSourceBlock (sl ml : String) : String :=
  if nontrivial sl && [".com", ".co.", ".org", ".net", ".in", ".uk"].any (fun d => strContains sl d) then
    if (searchEngines ++ ["google"]).any (fun e => strContains sl e) then "Organic"
    else if metaIndicators.any (fun p => strContains sl p) then "Meta"
    else "Organic"
  else dcMediumBlock sl ml

/-- Direct-traffic and referral checks of `determine_channel` (source lines
678-694), falling through to the source-domain analysis. -/
def dcDirectBlock (sl ml : String) : String :=
  if directIndicators.contains sl || directIndicators.contains ml then
    if nontrivial sl && sl.length > 1 then "Organic" else "Direct"
  else if ml == "referral" then
    if searchEngines.any (fun e => strContains sl e) then "Organic" else "Organic"
  else dcSourceBlock sl ml

/-- Search-engine, Google and Meta platform checks of `determine_channel`
(source lines 643-676), falling through to the direct-traffic checks. -/
def dcPlatformBlock (sl ml cl ctl tl : String) : String :=
  if searchEngines.any (fun e => strContains sl e) then "Organic"
  else if strContains sl "google" || strContains ml "google" then
    if nontrivial cl then "Google"
    else if ctl != "" || tl != "" then "Google"
    else "Organic"
  else if strContains sl "googleadservices" || strContains ml "googleadservices" then "Google"
  else if metaIndicators.any (fun i => strContains sl i) then "Meta"
  else if sl == "\x7b\x7bsite_source_name\x7d\x7d" then "Meta"
  else if googleIndicators.any (fun i => strContains sl i) then "Google"
  else dcDirectBlock sl ml

/-- Decision chain of `determine_channel` (source lines 623-746), taking the
already lowered and stripped parameters `source_lower` .. `term_lower`:
campaign priority (lines 623-634) and explicit organic indicators (lines
636-641), then the remaining blocks in source order. -/
def determineChannelLowered (sl ml cl ctl tl : String) : String :=
  if nontrivial cl then
    if strContains sl "google" || strContains ml "google" || strContains sl "googleadservices" then "Google"
    else if metaIndicators.any (fun i => strContains sl i) then "Meta"
    else "Meta"
  else if organicIndicators.any (fun i => strContains ml i) then "Organic"
  else if organicIndicators.any (fun i => strContains sl i) then "Organic"
  else dcPlatformBlock sl ml cl ctl tl

/-- The Channel Classifier `determine_channel` (source lines 598-746): the five
inputs are lowered and stripped (lines 613-617) and fed to the decision chain. -/
def determine_channel (source medium campaign content term : Option String) : String :=
  determineChannelLowered (lowerStrip source) (lowerStrip medium) (lowerStrip campaign)
    (lowerStrip content) (lowerStrip term)

lemma dcMediumBlock_cases (sl ml : String) :
    dcMediumBlock sl ml ∈ (["Meta", "Google", "Organic", "Direct"] : List String) := by
  unfold dcMediumBlock
  repeat' split
  all_goals decide

lemma dcSourceBlock_cases (sl ml : String) :
    dcSourceBlock sl ml ∈ (["Meta", "Google", "Organic", "Direct"] : List String) := by
  unfold dcSourceBlock
  repeat' split
  all_goals first
  | exact dcMediumBlock_cases sl ml
  | decide

lemma dcDirectBlock_cases (sl ml : String) :
    dcDirectBlock sl ml ∈ (["Meta", "Google", "Organic", "Direct"] : List String) := by
  unfold dcDirectBlock
  repeat' split
  all_goals first
  | exact dcSourceBlock_cases sl ml
  | decide

lemma dcPlatformBlock_cases (sl ml cl ctl tl : String) :
    dcPlatformBlock sl ml cl ctl tl ∈ (["Meta", "Google", "Organic", "Direct"] : List String) := by
  unfold dcPlatformBlock
  repeat' split
  all_goals first
  | exact dcDirectBlock_cases sl ml
  | decide

/-- Every branch of the decision chain returns one of the four channel labels. -/
lemma determineChannelLowered_cases (sl ml cl ctl tl : String) :
    determineChannelLowered sl ml cl ctl tl ∈
      (["Meta", "Google", "Organic", "Direct"] : List String) := by
  unfold determineChannelLowered
  repeat' split
  all_goals first
  | exact dcPlatformBlock_cases sl ml cl ctl tl
  | decide

/-- Every branch of the classifier returns one of the four channel labels. -/
lemma determine_channel_cases (source medium campaign content term : Option String) :
    determine_channel source medium campaign content term ∈
      (["Meta", "Google", "Organic", "Direct"] : List String) :=
  determineChannelLowered_cases _ _ _ _ _

/-- The classifier never returns the empty string. -/
lemma determine_channel_ne_empty (source medium campaign content term : Option String) :
    determine_channel source medium campaign content term ≠ "" := by
  intro heq
  have h := determine_channel_cases source medium campaign content term
  rw [heq] at h
  simp at h

/-- The classifier never returns the label of the legacy lookup table. -/
lemma determine_channel_ne_direct_unknown (source medium campaign content term : Option String) :
    determine_channel source medium campaign content term ≠ "Direct/Unknown" := by
  intro heq
  have h := determine_channel_cases source medium campaign content term
  rw [heq] at h
  simp at h

/-- C3: the channel classifier is a total function whose result is always one
of Meta, Google, Organic, Direct; moreover
classify(source=google, medium=cpc, campaign=summer_sale) = Google,
classify(source=facebook) = Meta, classify of all-empty inputs = Direct, and
classify(source=bing, medium=organic) = Organic. -/
theorem claim_c3_classifier_total_and_examples :
    (∀ source medium campaign content term : Option String,
      determine_channel source medium campaign content term ∈
        (["Meta", "Google", "Organic", "Direct"] : List String)) ∧
    determine_channel (some "google") (some "cpc") (some "summer_sale") none none = "Google" ∧
    determine_channel (some "facebook") none none none none = "Meta" ∧
    determine_channel (some "") (some "") (some "") none none = "Direct" ∧
    determine_channel (some "bing") (some "organic") none none none = "Organic" := by
  refine ⟨determine_channel_cases, ?_, ?_, ?_, ?_⟩ <;> decide

/-! ## UTM Extractor: attribution records and the three parsers -/

/-- Normalized extraction result (spec section 3, built at source lines
277-285, 372-380, 439-447).  `attribution_type` says which of content,
campaign, medium supplied `attribution_id`. -/
structure AttributionRecord where
  source : Option String
  medium : Option String
  campaign : Option String
  content : Option String
  term : Option String
  attributionId : String
  attributionType : String
deriving DecidableEq, Repr

/-- One `utmParameters` object of a customer-journey moment.  JSON values are
modelled as optional strings (`none` is a missing key or JSON null). -/
structure UtmParams where
  source : Option String
  medium : Option String
  campaign : Option String
  content : Option String
  term : Option String
deriving DecidableEq, Repr

/-- Input to `parse_customer_journey` (source lines 244-263).
`absent` covers the values rejected up front (None, empty or whitespace
string, the literals "null" and "None"); `malformed` covers a JSON decode
error (caught at line 309); `doc none` covers a decoded document that is
falsy or has no usable `moments` key; `doc (some ms)` is a decoded document
with a moments list, where a `none` moment is one that is falsy, lacks
`utmParameters`, or whose `utmParameters` is falsy (line 267). -/
inductive JourneyInput where
  | absent
  | malformed
  | doc (moments : Option (List (Option UtmParams)))
deriving DecidableEq, Repr

/-- Python truthiness of an optional string. -/
def truthyOpt : Option String → Bool
  | none => false
  | some s => s != ""

/-- The validity test applied to each candidate field by the journey parser
(source lines 276, 286, 296): truthy, not the literal "null", and not an
unresolved template starting with two opening braces. -/
def okJourney : Option String → Bool
  | none => false
  | some s => s != "" && s != "null" && !(sStartsWith s "\x7b\x7b")

/-- The content > campaign > medium selection of the journey parser for one
moment with truthy `utmParameters` (source lines 270-305).  When none of the
three fields qualifies the loop moves on to the next moment (`none` here). -/
def pickJourneyRec (u : UtmParams) : Option AttributionRecord :=
  if okJourney u.content then
    some { source := u.source, medium := u.medium, campaign := u.campaign, content := u.content,
           term := u.term, attributionId := u.content.getD "", attributionType := "content" }
  else if okJourney u.campaign then
    some { source := u.source, medium := u.medium, campaign := u.campaign, content := u.content,
           term := u.term, attributionId := u.campaign.getD "", attributionType := "campaign" }
  else if okJourney u.medium then
    some { source := u.source, medium := u.medium, campaign := u.campaign, content := u.content,
           term := u.term, attributionId := u.medium.getD "", attributionType := "medium" }
  else none

/-- Scan of the moments in reverse chronological order (source line 266):
the caller passes the reversed list and this walks it front to back. -/
def scanMoments : List (Option UtmParams) → Option AttributionRecord
  | [] => none
  | m :: rest =>
    match m with
    | none => scanMoments rest
    | some u =>
      match pickJourneyRec u with
      | some r => some r
      | none => scanMoments rest

/-- The customer-journey parser `parse_customer_journey` (source lines
234-311). -/
def parse_customer_journey : JourneyInput → Option AttributionRecord
  | JourneyInput.absent => none
  | JourneyInput.malformed => none
  | JourneyInput.doc none => none
  | JourneyInput.doc (some ms) => if ms.isEmpty then none else scanMoments ms.reverse

/-- One element of the decoded custom-attributes array (source lines 342-352):
either a well-shaped `{key, value}` object or anything else, which the loop
skips. -/
inductive AttrItem where
  | junk
  | kv (key : String) (value : Option String)
deriving DecidableEq, Repr

/-- Input to `parse_custom_attributes` (source lines 323-338). `absent` covers
None, empty or whitespace strings and the literals "null", "None" and "[]";
`malformed` a JSON decode error (caught at line 384). -/
inductive AttrsInput where
  | absent
  | malformed
  | arr (items : List AttrItem)
deriving DecidableEq, Repr

/-- Python dict assignment `utm_data[key] = value`: overwrite in place or
append. -/
def upsert (d : List (String × Option String)) (k : String) (v : Option String) :
    List (String × Option String) :=
  if d.any (fun p => p.1 == k) then d.map (fun p => if p.1 == k then (k, v) else p)
  else d ++ [(k, v)]

/-- Collection loop of `parse_custom_attributes` (source lines 341-352):
keys starting with `utm_` plus `fbclid` and `gclid`. -/
def buildUtmData (items : List AttrItem) : List (String × Option String) :=
  items.foldl
    (fun d item =>
      match item with
      | AttrItem.junk => d
      | AttrItem.kv k v =>
        if sStartsWith k "utm_" || k == "fbclid" || k == "gclid" then upsert d k v else d)
    []

/-- Python `utm_data.get(key)` flattened to an optional string. -/
def utmGet (d : List (String × Option String)) (k : String) : Option String :=
  (d.lookup k).join

/-- Python `key in utm_data and utm_data[key]` (source lines 361, 364, 367). -/
def utmTruthy (d : List (String × Option String)) (k : String) : Bool :=
  match d.lookup k with
  | some (some v) => v != ""
  | _ => false

/-- Record constructor shared by the three priority branches of
`parse_custom_attributes` (source lines 372-380). -/
def mkAttrsRec (d : List (String × Option String)) (aid ty : String) : AttributionRecord :=
  { source := utmGet d "utm_source", medium := utmGet d "utm_medium",
    campaign := utmGet d "utm_campaign", content := utmGet d "utm_content",
    term := utmGet d "utm_term", attributionId := aid, attributionType := ty }

/-- Priority selection of `parse_custom_attributes` on the collected dict
(source lines 354-382). -/
def pickAttrsRec (d : List (String × Option String)) : Option AttributionRecord :=
  if d.isEmpty then none
  else if utmTruthy d "utm_content" then some (mkAttrsRec d ((utmGet d "utm_content").getD "") "content")
  else if utmTruthy d "utm_campaign" then some (mkAttrsRec d ((utmGet d "utm_campaign").getD "") "campaign")
  else if utmTruthy d "utm_medium" then some (mkAttrsRec d ((utmGet d "utm_medium").getD "") "medium")
  else none

/-- The custom-attributes parser `parse_custom_attributes` (source lines
313-386).  Unlike the journey parser, the three priority checks test only
truthiness of the collected values (lines 361-369). -/
def parse_custom_attributes : AttrsInput → Option AttributionRecord
  | AttrsInput.absent => none
  | AttrsInput.malformed => none
  | AttrsInput.arr items =>
    if items.isEmpty then none
    else
      pickAttrsRec (buildUtmData items)

/-- The five discrete UTM columns of one order row
(`customer_utm_source` .. `customer_utm_term`, source lines 401-419). -/
structure DirectUtmFields where
  source : Option String
  medium : Option String
  campaign : Option String
  content : Option String
  term : Option String
deriving DecidableEq, Repr

/-- Column admission test of `get_direct_utm_data` (source lines 401-419):
a value enters `utm_data` when it is not None, not the empty string, and not
whitespace only; the raw (unstripped) value is stored. -/
def keepDirect : Option String → Option String
  | none => none
  | some s => if sStrip s != "" then some s else none

/-- Priority selection of `get_direct_utm_data` over the kept columns
(source lines 421-449). -/
def pickDirectRec (src med cam con ter : Option String) : Option AttributionRecord :=
  if src.isNone && med.isNone && cam.isNone && con.isNone && ter.isNone then none
  else if truthyOpt con then
    some { source := src, medium := med, campaign := cam, content := con, term := ter,
           attributionId := con.getD "", attributionType := "content" }
  else if truthyOpt cam then
    some { source := src, medium := med, campaign := cam, content := con, term := ter,
           attributionId := cam.getD "", attributionType := "campaign" }
  else if truthyOpt med then
    some { source := src, medium := med, campaign := cam, content := con, term := ter,
           attributionId := med.getD "", attributionType := "medium" }
  else none

/-- The direct-column extractor `get_direct_utm_data` (source lines 388-449). -/
def get_direct_utm_data (f : DirectUtmFields) : Option AttributionRecord :=
  pickDirectRec (keepDirect f.source) (keepDirect f.medium) (keepDirect f.campaign)
    (keepDirect f.content) (keepDirect f.term)

/-! ## Claim C4: which field supplies the attribution id -/

/-- Modelled from the spec wording of C4: a candidate field qualifies when it
is non-empty, not the literal "null", and (for the customer-journey source
only) not an unresolved template. -/
def specFieldOk (journeySource : Bool) : Option String → Bool
  | none => false
  | some s => s != "" && s != "null" && (!journeySource || !(sStartsWith s "\x7b\x7b"))

/-- Modelled from the spec wording of C4: the highest-priority qualifying
field among content > campaign > medium, with the value it supplies. -/
def specAttributionChoice (journeySource : Bool) (c ca m : Option String) :
    Option (String × String) :=
  if specFieldOk journeySource c then some ("content", c.getD "")
  else if specFieldOk journeySource ca then some ("campaign", ca.getD "")
  else if specFieldOk journeySource m then some ("medium", m.getD "")
  else none

/-- Selector actually implemented by the custom-attributes and direct-column
extractors: plain truthiness, without the "null"-literal filter. -/
def truthyChoice (c ca m : Option String) : Option (String × String) :=
  if truthyOpt c then some ("content", c.getD "")
  else if truthyOpt ca then some ("campaign", ca.getD "")
  else if truthyOpt m then some ("medium", m.getD "")
  else none

/-- Concrete custom-attributes payload refuting C4 as stated: the content
value is the literal string "null". -/
def c4Input : AttrsInput :=
  AttrsInput.arr [AttrItem.kv "utm_content" (some "null"), AttrItem.kv "utm_campaign" (some "abc")]

/-- C4 counterexample: on `c4Input` the custom-attributes parser picks the
content field even though its value is the literal "null", while the claim
says the literal "null" is skipped in every extractor, which would pick the
campaign field here. -/
theorem claim_c4_counterexample :
    parse_custom_attributes c4Input =
      some { source := none, medium := none, campaign := some "abc", content := some "null",
             term := none, attributionId := "null", attributionType := "content" } ∧
    specAttributionChoice false (some "null") (some "abc") none = some ("campaign", "abc") ∧
    (("campaign", "abc") : String × String) ≠ ("content", "null") := by
  refine ⟨?_, ?_, ?_⟩ <;> decide

lemma utmTruthy_eq_truthyOpt (d : List (String × Option String)) (k : String) :
    utmTruthy d k = truthyOpt (utmGet d k) := by
  unfold utmTruthy utmGet
  rcases h : d.lookup k with _ | v
  · rfl
  · rcases v with _ | s <;> rfl

lemma pickJourneyRec_choice (u : UtmParams) (r : AttributionRecord)
    (h : pickJourneyRec u = some r) :
    specAttributionChoice true r.content r.campaign r.medium =
      some (r.attributionType, r.attributionId) := by
  unfold pickJourneyRec at h
  have hok : ∀ v : Option String, okJourney v = specFieldOk true v := by
    intro v
    rcases v with _ | s
    · rfl
    · simp [okJourney, specFieldOk]
  split at h
  · cases h
    simp_all [specAttributionChoice]
  · split at h
    · cases h
      simp_all [specAttributionChoice]
    · split at h
      · cases h
        simp_all [specAttributionChoice]
      · cases h

lemma scanMoments_choice (ms : List (Option UtmParams)) (r : AttributionRecord)
    (h : scanMoments ms = some r) :
    specAttributionChoice true r.content r.campaign r.medium =
      some (r.attributionType, r.attributionId) := by
  induction ms with
  | nil => simp [scanMoments] at h
  | cons m rest ih =>
    rcases m with _ | u
    · simp only [scanMoments] at h
      exact ih h
    · simp only [scanMoments] at h
      split at h
      · rename_i r0 heq
        cases h
        exact pickJourneyRec_choice u _ heq
      · exact ih h

lemma pickAttrsRec_choice (d : List (String × Option String)) (r : AttributionRecord)
    (h : pickAttrsRec d = some r) :
    truthyChoice r.content r.campaign r.medium = some (r.attributionType, r.attributionId) := by
  unfold pickAttrsRec at h
  split at h
  · cases h
  · split at h
    · cases h
      simp_all [truthyChoice, mkAttrsRec, utmTruthy_eq_truthyOpt]
    · split at h
      · cases h
        simp_all [truthyChoice, mkAttrsRec, utmTruthy_eq_truthyOpt]
      · split at h
        · cases h
          simp_all [truthyChoice, mkAttrsRec, utmTruthy_eq_truthyOpt]
        · cases h

lemma pickDirectRec_choice (src med cam con ter : Option String) (r : AttributionRecord)
    (h : pickDirectRec src med cam con ter = some r) :
    truthyChoice r.content r.campaign r.medium = some (r.attributionType, r.attributionId) := by
  unfold pickDirectRec at h
  split at h
  · cases h
  · split at h
    · cases h
      simp_all [truthyChoice]
    · split at h
      · cases h
        simp_all [truthyChoice]
      · split at h
        · cases h
          simp_all [truthyChoice]
        · cases h

/-- C4 amended: the journey parser picks the highest-priority field that is
non-empty, not the literal "null", and not an unresolved template; the
custom-attributes and direct-column extractors pick the highest-priority
field that is merely non-empty (no "null"-literal or template filter). -/
theorem claim_c4_attribution_type_priority :
    (∀ (j : JourneyInput) (r : AttributionRecord), parse_customer_journey j = some r →
      specAttributionChoice true r.content r.campaign r.medium =
        some (r.attributionType, r.attributionId)) ∧
    (∀ (a : AttrsInput) (r : AttributionRecord), parse_custom_attributes a = some r →
      truthyChoice r.content r.campaign r.medium = some (r.attributionType, r.attributionId)) ∧
    (∀ (f : DirectUtmFields) (r : AttributionRecord), get_direct_utm_data f = some r →
      truthyChoice r.content r.campaign r.medium = some (r.attributionType, r.attributionId)) := by
  refine ⟨?_, ?_, ?_⟩
  · intro j r h
    rcases j with _ | _ | ms
    · cases h
    · cases h
    · rcases ms with _ | ms
      · cases h
      · simp only [parse_customer_journey] at h
        split at h
        · cases h
        · exact scanMoments_choice ms.reverse r h
  · intro a r h
    rcases a with _ | _ | items
    · cases h
    · cases h
    · simp only [parse_custom_attributes] at h
      split at h
      · cases h
      · exact pickAttrsRec_choice (buildUtmData items) r h
  · intro f r h
    exact pickDirectRec_choice (keepDirect f.source) (keepDirect f.medium)
      (keepDirect f.campaign) (keepDirect f.content) (keepDirect f.term) r h

/-- Concrete witness inputs for the C4 witness theorem. -/
def c4WitnessMoment : UtmParams :=
  { source := some "s", medium := some "m", campaign := none, content := some "cid", term := none }

def c4WitnessJourney : JourneyInput :=
  JourneyInput.doc (some [some c4WitnessMoment])

def c4WitnessJourneyRec : AttributionRecord :=
  { source := some "s", medium := some "m", campaign := none, content := some "cid",
    term := none, attributionId := "cid", attributionType := "content" }

def c4WitnessAttrsRec : AttributionRecord :=
  { source := none, medium := none, campaign := some "abc", content := some "null",
    term := none, attributionId := "null", attributionType := "content" }

def c4WitnessDirect : DirectUtmFields :=
  { source := none, medium := none, campaign := some "camp", content := none, term := none }

def c4WitnessDirectRec : AttributionRecord :=
  { source := none, medium := none, campaign := some "camp", content := none, term := none,
    attributionId := "camp", attributionType := "campaign" }

/-- C4 witness: the amended theorem applied to one concrete input per
extractor. -/
theorem claim_c4_attribution_type_priority_witness :
    specAttributionChoice true (some "cid") none (some "m") = some ("content", "cid") ∧
    truthyChoice (some "null") (some "abc") none = some ("content", "null") ∧
    truthyChoice none (some "camp") none = some ("campaign", "camp") := by
  refine ⟨?_, ?_, ?_⟩
  · exact claim_c4_attribution_type_priority.1 c4WitnessJourney c4WitnessJourneyRec (by decide)
  · exact claim_c4_attribution_type_priority.2.1 c4Input c4WitnessAttrsRec (by decide)
  · exact claim_c4_attribution_type_priority.2.2 c4WitnessDirect c4WitnessDirectRec (by decide)

/-! ## Campaign Matcher -/

/-- An ad-dimension identifier as it arrives from the ad table: either a
string or a numeric value (ad platform ids are serialized both ways, which
is why the matcher compares raw values and their string forms, source lines
527-534). -/
inductive IdVal where
  | s (v : String)
  | i (n : Int)
deriving DecidableEq, Repr

/-- Python `str(x)` on an id value. -/
def IdVal.str : IdVal → String
  | IdVal.s v => v
  | IdVal.i n => toString n

/-- One row of the daily ad rollup, restricted to the columns read by
`map_attribution_to_campaign` (source lines 584-596). -/
structure DailyAd where
  campaignId : IdVal
  campaignName : String
  adsetId : IdVal
  adsetName : String
  adId : IdVal
  adName : String
  impressions : Int
  clicks : Int
  spend : Int
  purchases : Int
  purchaseValue : Int
deriving DecidableEq, Repr

/-- Result of the Campaign Matcher (source lines 503-515, 584-596). -/
structure CampaignMapping where
  campaignId : Option IdVal
  campaignName : String
  adsetId : Option IdVal
  adsetName : String
  adId : Option IdVal
  adName : String
  impressions : Int
  clicks : Int
  spend : Int
  adPurchases : Int
  adRevenue : Int
deriving DecidableEq, Repr

/-- The synthesized "Unknown Campaign" placeholder (source lines 503-515 and
564-576: both occurrences build the identical record). -/
def unknownCampaign (channel : String) : CampaignMapping :=
  { campaignId := none, campaignName := "Unknown Campaign - " ++ channel,
    adsetId := none, adsetName := "Unknown Adset - " ++ channel,
    adId := none, adName := "Unknown Ad - " ++ channel,
    impressions := 0, clicks := 0, spend := 0, adPurchases := 0, adRevenue := 0 }

/-- Python `channel and channel in ['Meta', 'Google', 'Organic']`
(source lines 501 and 562). -/
def trackedChannel : Option String → Bool
  | none => false
  | some c => c != "" && ["Meta", "Google", "Organic"].contains c

/-- The column comparison of the matcher: string form equal, or raw value
equal to the (string) attribution id (source lines 532-534 and analogous). -/
def idMatch (col : IdVal) (aid : String) : Bool :=
  col.str == aid || col == IdVal.s aid

/-- Mapping built from the first matching ad row (source lines 581-596). -/
def mkMatchMapping (m : DailyAd) : CampaignMapping :=
  { campaignId := some m.campaignId, campaignName := m.campaignName,
    adsetId := some m.adsetId, adsetName := m.adsetName,
    adId := some m.adId, adName := m.adName,
    impressions := m.impressions, clicks := m.clicks, spend := m.spend,
    adPurchases := m.purchases, adRevenue := m.purchaseValue }

/-- Unknown-campaign fallback shared by the no-attribution and the
zero-matches paths (source lines 499-516 and 560-579). -/
def unknownOrNone (channel : Option String) : Option CampaignMapping :=
  if trackedChannel channel then some (unknownCampaign ((channel).getD "")) else none

/-- Match list built per attribution type (source lines 524-558): content
matches against `ad_id`, campaign against `campaign_id`, medium against
`adset_id`; any other type finds no matches. -/
def matchesFor (rec : AttributionRecord) (dailyAds : List DailyAd) : List DailyAd :=
  if rec.attributionType == "content" then dailyAds.filter (fun a => idMatch a.adId rec.attributionId)
  else if rec.attributionType == "campaign" then
    dailyAds.filter (fun a => idMatch a.campaignId rec.attributionId)
  else if rec.attributionType == "medium" then
    dailyAds.filter (fun a => idMatch a.adsetId rec.attributionId)
  else []

/-- The Campaign Matcher `map_attribution_to_campaign` (source lines
486-596). -/
def map_attribution_to_campaign (attributionData : Option AttributionRecord)
    (dailyAds : List DailyAd) (channel : Option String) : Option CampaignMapping :=
  match attributionData with
  | none => unknownOrNone channel
  | some rec =>
    match matchesFor rec dailyAds with
    | [] => unknownOrNone channel
    | m :: _ => some (mkMatchMapping m)

/-- Modelled from the spec wording of C5: the ad dimension indicated by the
attribution type (content selects the ad id, campaign the campaign id,
medium the adset id). -/
def specDimension (ty : String) (a : DailyAd) : Option IdVal :=
  if ty = "content" then some a.adId
  else if ty = "campaign" then some a.campaignId
  else if ty = "medium" then some a.adsetId
  else none

lemma trackedChannel_some (c : String) :
    trackedChannel (some c) = true ↔ c ∈ (["Meta", "Google", "Organic"] : List String) := by
  unfold trackedChannel
  constructor
  · intro h
    rw [Bool.and_eq_true] at h
    have := h.2
    simpa using this
  · intro h
    simp only [List.mem_cons, List.not_mem_nil, or_false] at h
    rcases h with h | h | h <;> subst h <;> decide

lemma matchesFor_eq_specDimension (rec : AttributionRecord) (ads : List DailyAd) :
    matchesFor rec ads =
      ads.filter (fun a =>
        (specDimension rec.attributionType a).any (fun col => idMatch col rec.attributionId)) := by
  unfold matchesFor specDimension
  rcases hc : rec.attributionType == "content"
  · rcases hca : rec.attributionType == "campaign"
    · rcases hm : rec.attributionType == "medium"
      · simp_all [List.filter_eq_nil]
      · simp_all
    · simp_all
  · simp_all

/-- C5: with no attribution record the matcher synthesizes the
"Unknown Campaign - channel" placeholder with all numeric ad metrics zero
exactly for the tracked channels Meta, Google, Organic, and returns `none`
otherwise; with a record it matches the attribution id against the dimension
selected by the attribution type (content selects ad id, campaign the
campaign id, medium the adset id), maps the first match, and on zero matches
falls back to exactly the same unknown-campaign synthesis. -/
theorem claim_c5_campaign_matcher :
    (∀ ads : List DailyAd, map_attribution_to_campaign none ads none = none) ∧
    (∀ (ads : List DailyAd) (c : String),
      map_attribution_to_campaign none ads (some c) =
        if c ∈ (["Meta", "Google", "Organic"] : List String) then some (unknownCampaign c)
        else none) ∧
    (∀ c : String, unknownCampaign c =
      { campaignId := none, campaignName := "Unknown Campaign - " ++ c,
        adsetId := none, adsetName := "Unknown Adset - " ++ c,
        adId := none, adName := "Unknown Ad - " ++ c,
        impressions := 0, clicks := 0, spend := 0, adPurchases := 0, adRevenue := 0 }) ∧
    (∀ (ads : List DailyAd) (ch : Option String) (rec : AttributionRecord),
      map_attribution_to_campaign (some rec) ads ch =
        match ads.filter (fun a =>
            (specDimension rec.attributionType a).any (fun col => idMatch col rec.attributionId)) with
        | [] => map_attribution_to_campaign none ads ch
        | m :: _ => some (mkMatchMapping m)) := by
  refine ⟨?_, ?_, ?_, ?_⟩
  · intro ads
    rfl
  · intro ads c
    simp only [map_attribution_to_campaign, unknownOrNone]
    by_cases hc : c ∈ (["Meta", "Google", "Organic"] : List String)
    · have hb : trackedChannel (some c) = true := (trackedChannel_some c).2 hc
      simp [hb, hc]
    · have hb : ¬ trackedChannel (some c) = true := fun hh => hc ((trackedChannel_some c).1 hh)
      rw [Bool.not_eq_true] at hb
      simp [hb, hc]
  · intro c
    rfl
  · intro ads ch rec
    simp only [map_attribution_to_campaign]
    rw [← matchesFor_eq_specDimension]

/-! ## Attribution Processor: per-order processing -/

/-- One order as read by the per-order loop (source lines 843-888 and
748-812).  `journeyText` and `attrsText` are the raw JSON strings of the
same payloads held structurally in `journey` and `customAttributes`; only
the pattern-inference fallback reads them as text. -/
structure OrderData where
  orderId : String
  journey : JourneyInput
  customAttributes : AttrsInput
  directUtm : DirectUtmFields
  referrerUrl : Option String
  journeyText : Option String
  attrsText : Option String
deriving DecidableEq, Repr

/-- Python presence test used by `infer_channel_from_order_patterns`:
`value and str(value).strip() not in excluded` (source lines 760, 783, 798). -/
def textPresent (v : Option String) (excluded : List String) : Bool :=
  match v with
  | none => false
  | some s => s != "" && !(excluded.contains (sStrip s))

/-- Referrer-URL checks of `infer_channel_from_order_patterns` (source lines
758-779); `none` when no pattern matches and the scan falls through. -/
def inferReferrerBlock (rl : String) : Option String :=
  if ["google.com", "bing.com", "yahoo.com", "duckduckgo.com"].any (fun e => strContains rl e) then
    some "Organic"
  else if ["facebook.com", "instagram.com", "twitter.com", "linkedin.com"].any
      (fun p => strContains rl p) then
    some "Meta"
  else if strContains rl "shopify.com" then some "Organic"
  else if [".com", ".co.", ".org", ".net"].any (fun d => strContains rl d) then some "Organic"
  else none

/-- Journey-text and attributes-text checks of
`infer_channel_from_order_patterns` (source lines 781-809). -/
def inferTextBlock (tl : String) : Option String :=
  if ["search", "organic", "seo", "unpaid", "natural", "shopify"].any
      (fun i => strContains tl i) then
    some "Organic"
  else if ["social", "facebook", "instagram", "fb", "ig", "igshopping"].any
      (fun i => strContains tl i) then
    some "Meta"
  else none

/-- The fallback channel inference `infer_channel_from_order_patterns`
(source lines 748-812). -/
def infer_channel_from_order_patterns (o : OrderData) : String :=
  match (if textPresent o.referrerUrl ["", "null", "None"] then
      inferReferrerBlock (sLower (o.referrerUrl.getD "")) else none) with
  | some ch => ch
  | none =>
    match (if textPresent o.journeyText ["", "null", "None"] then
        inferTextBlock (sLower (o.journeyText.getD "")) else none) with
    | some ch => ch
    | none =>
      match (if textPresent o.attrsText ["", "null", "None", "[]"] then
          inferTextBlock (sLower (o.attrsText.getD "")) else none) with
      | some ch => ch
      | none => "Direct"

/-- The extraction priority chain of the per-order loop (source lines
856-888).  The pre-checks at lines 862-866 and 874-879 test exactly the
conditions under which the parser input is `absent`, and both parsers return
`none` on `absent`, so guarding the call is equivalent to calling directly. -/
def extractAttribution (o : OrderData) : Option AttributionRecord × Option String :=
  match parse_customer_journey o.journey with
  | some r => (some r, some "customer_journey")
  | none =>
    match parse_custom_attributes o.customAttributes with
    | some r => (some r, some "custom_attributes")
    | none =>
      match get_direct_utm_data o.directUtm with
      | some r => (some r, some "direct_utm")
      | none => (none, none)

/-- Channel classification of whatever attribution record resulted (source
lines 890-896): each UTM field is the record field, or None. -/
def attributionChannel (attributionData : Option AttributionRecord) : String :=
  determine_channel (attributionData.bind (fun r => r.source))
    (attributionData.bind (fun r => r.medium)) (attributionData.bind (fun r => r.campaign))
    (attributionData.bind (fun r => r.content)) (attributionData.bind (fun r => r.term))

/-- Channel adjustment for an order with no attribution data (source lines
910-926): inside the tracked-channel branch a Meta channel is replaced by
Organic; otherwise a channel is inferred from order patterns and kept when
truthy. -/
def unattributedChannel (o : OrderData) (channel0 : String) : String :=
  if channel0 != "" && ["Meta", "Google", "Organic", "Direct"].contains channel0 then
    (if channel0 == "Meta" then "Organic" else channel0)
  else if infer_channel_from_order_patterns o != "" then infer_channel_from_order_patterns o
  else channel0

/-- Campaign synthesis for an order with no attribution data: both branches
of the source (lines 918 and 926) call the matcher with `None` and the
adjusted channel. -/
def resolveUnattributed (ads : List DailyAd) (o : OrderData) (channel0 : String) :
    String × Option CampaignMapping :=
  (unattributedChannel o channel0,
   map_attribution_to_campaign none ads (some (unattributedChannel o channel0)))

/-- One Attribution Result row, restricted to the attribution columns built
at source lines 963-1007 plus the two summary flags of lines 1046-1047; the
financial columns carry no claim. -/
structure ResultRow where
  orderId : String
  channel : String
  attributionSource : Option String
  attributionId : Option String
  attributionType : Option String
  utmSource : Option String
  utmMedium : Option String
  utmCampaign : Option String
  utmContent : Option String
  utmTerm : Option String
  campaignId : Option IdVal
  campaignName : Option String
  adsetId : Option IdVal
  adsetName : Option String
  adId : Option IdVal
  adName : Option String
  isAttributed : Bool
  isPaidChannel : Bool
deriving DecidableEq, Repr

/-- Assembly of the result record (source lines 963-1007, 1046-1047). -/
def mkResultRow (o : OrderData) (attributionData : Option AttributionRecord)
    (attributionSource : Option String) (channel : String)
    (campaignData : Option CampaignMapping) : ResultRow :=
  { orderId := o.orderId, channel := channel, attributionSource := attributionSource,
    attributionId := attributionData.map (fun r => r.attributionId),
    attributionType := attributionData.map (fun r => r.attributionType),
    utmSource := attributionData.bind (fun r => r.source),
    utmMedium := attributionData.bind (fun r => r.medium),
    utmCampaign := attributionData.bind (fun r => r.campaign),
    utmContent := attributionData.bind (fun r => r.content),
    utmTerm := attributionData.bind (fun r => r.term),
    campaignId := campaignData.bind (fun mp => mp.campaignId),
    campaignName := campaignData.map (fun mp => mp.campaignName),
    adsetId := campaignData.bind (fun mp => mp.adsetId),
    adsetName := campaignData.map (fun mp => mp.adsetName),
    adId := campaignData.bind (fun mp => mp.adId),
    adName := campaignData.map (fun mp => mp.adName),
    isAttributed := attributionSource.isSome,
    isPaidChannel := ["Meta", "Google"].contains channel }

/-- The body of the per-order loop (source lines 843-1007): extraction chain,
classification, campaign matching (with the unattributed path of lines
910-926), result assembly. -/
def processOrder (ads : List DailyAd) (o : OrderData) : ResultRow :=
  match extractAttribution o with
  | (some rec, src) =>
    mkResultRow o (some rec) src (attributionChannel (some rec))
      (map_attribution_to_campaign (some rec) ads (some (attributionChannel (some rec))))
  | (none, src) =>
    mkResultRow o none src (resolveUnattributed ads o (attributionChannel none)).1
      (resolveUnattributed ads o (attributionChannel none)).2

/-- The order loop with its per-order exception recovery (source lines
843-1017): a failing order is skipped with `continue`, everything else is
appended. -/
def processOrdersLoop (f : OrderData → Except String ResultRow) (orders : List OrderData) :
    List ResultRow :=
  orders.foldl
    (fun acc o =>
      match f o with
      | Except.ok r => acc ++ [r]
      | Except.error _ => acc)
    []

/-! ## Claim C2: extraction priority chain -/

/-- C2: the processor tries the journey parser first, custom attributes only
when the journey parser returned None, and direct UTM only when both failed;
`attribution_source` lies in {customer_journey, custom_attributes,
direct_utm, None} and names exactly the first stage whose extractor
succeeded. -/
theorem claim_c2_priority_chain (ads : List DailyAd) (o : OrderData) :
    ((processOrder ads o).attributionSource ∈
      ([some "customer_journey", some "custom_attributes", some "direct_utm", none] :
        List (Option String))) ∧
    ((processOrder ads o).attributionSource = some "customer_journey" ↔
      (parse_customer_journey o.journey).isSome) ∧
    ((processOrder ads o).attributionSource = some "custom_attributes" ↔
      parse_customer_journey o.journey = none ∧
        (parse_custom_attributes o.customAttributes).isSome) ∧
    ((processOrder ads o).attributionSource = some "direct_utm" ↔
      parse_customer_journey o.journey = none ∧
        parse_custom_attributes o.customAttributes = none ∧
        (get_direct_utm_data o.directUtm).isSome) ∧
    ((processOrder ads o).attributionSource = none ↔
      parse_customer_journey o.journey = none ∧
        parse_custom_attributes o.customAttributes = none ∧
        get_direct_utm_data o.directUtm = none) := by
  rcases hj : parse_customer_journey o.journey with _ | rj
  · rcases ha : parse_custom_attributes o.customAttributes with _ | ra
    · rcases hd : get_direct_utm_data o.directUtm with _ | rd
      · simp [processOrder, extractAttribution, mkResultRow, hj, ha, hd]
      · simp [processOrder, extractAttribution, mkResultRow, hj, ha, hd]
    · simp [processOrder, extractAttribution, mkResultRow, hj, ha]
  · simp [processOrder, extractAttribution, mkResultRow, hj]

/-! ## Claim C9: per-order failure tolerance -/

lemma processOrdersLoop_foldl (f : OrderData → Except String ResultRow)
    (orders : List OrderData) (acc : List ResultRow) :
    orders.foldl
        (fun acc o =>
          match f o with
          | Except.ok r => acc ++ [r]
          | Except.error _ => acc)
        acc =
      acc ++ orders.filterMap (fun o => (f o).toOption) := by
  induction orders generalizing acc with
  | nil => simp
  | cons o rest ih =>
    rcases h : f o with e | r
    · simp only [List.foldl_cons, List.filterMap_cons, h]
      rw [ih]
      rfl
    · simp only [List.foldl_cons, List.filterMap_cons, h]
      rw [ih]
      simp [Except.toOption]

lemma processOrdersLoop_eq_filterMap (f : OrderData → Except String ResultRow)
    (orders : List OrderData) :
    processOrdersLoop f orders = orders.filterMap (fun o => (f o).toOption) := by
  unfold processOrdersLoop
  rw [processOrdersLoop_foldl]
  rfl

/-- C9: an order whose processing raises is skipped and the loop continues;
the results for all other orders are exactly the results of the batch
without the failing order, and equal the concatenation of the two
surrounding sub-batches. -/
theorem claim_c9_failing_order_skipped (f : OrderData → Except String ResultRow)
    (pre post : List OrderData) (bad : OrderData) (e : String) (hbad : f bad = Except.error e) :
    processOrdersLoop f (pre ++ bad :: post) = processOrdersLoop f (pre ++ post) ∧
    processOrdersLoop f (pre ++ post) = processOrdersLoop f pre ++ processOrdersLoop f post := by
  constructor
  · rw [processOrdersLoop_eq_filterMap, processOrdersLoop_eq_filterMap]
    rw [List.filterMap_append, List.filterMap_append, List.filterMap_cons, hbad]
    rfl
  · rw [processOrdersLoop_eq_filterMap, processOrdersLoop_eq_filterMap,
      processOrdersLoop_eq_filterMap, List.filterMap_append]

/-- Concrete orders for the C9 witness. -/
def c9EmptyDirect : DirectUtmFields :=
  { source := none, medium := none, campaign := none, content := none, term := none }

def c9GoodOrder : OrderData :=
  { orderId := "ok-1", journey := JourneyInput.absent, customAttributes := AttrsInput.absent,
    directUtm := c9EmptyDirect, referrerUrl := none, journeyText := none, attrsText := none }

def c9BadOrder : OrderData :=
  { orderId := "bad-1", journey := JourneyInput.absent, customAttributes := AttrsInput.absent,
    directUtm := c9EmptyDirect, referrerUrl := none, journeyText := none, attrsText := none }

/-- A processing function that raises on the bad order and succeeds on every
other order. -/
def c9F : OrderData → Except String ResultRow := fun o =>
  if o.orderId == "bad-1" then Except.error "boom" else Except.ok (processOrder [] o)

/-- C9 witness: the theorem applied to a concrete two-order batch whose
second order fails. -/
theorem claim_c9_failing_order_skipped_witness :
    processOrdersLoop c9F [c9GoodOrder, c9BadOrder] = processOrdersLoop c9F [c9GoodOrder] ∧
    processOrdersLoop c9F [c9GoodOrder] =
      processOrdersLoop c9F [c9GoodOrder] ++ processOrdersLoop c9F [] := by
  exact claim_c9_failing_order_skipped c9F [c9GoodOrder] [] c9BadOrder "boom" rfl

/-! ## Claim C10: no Meta result without attribution -/

lemma extractAttribution_sourceIsSome (o : OrderData) (rec : AttributionRecord)
    (src : Option String) (h : extractAttribution o = (some rec, src)) : src.isSome := by
  unfold extractAttribution at h
  rcases hj : parse_customer_journey o.journey with _ | rj
  · rcases ha : parse_custom_attributes o.customAttributes with _ | ra
    · rcases hd : get_direct_utm_data o.directUtm with _ | rd
      · simp [hj, ha, hd] at h
      · simp only [hj, ha, hd, Prod.mk.injEq] at h
        obtain ⟨h1, h2⟩ := h
        subst h2
        rfl
    · simp only [hj, ha, Prod.mk.injEq] at h
      obtain ⟨h1, h2⟩ := h
      subst h2
      rfl
  · simp only [hj, Prod.mk.injEq] at h
    obtain ⟨h1, h2⟩ := h
    subst h2
    rfl

lemma unattributedChannel_listed (o : OrderData) (c : String)
    (hc : (c != "" && ["Meta", "Google", "Organic", "Direct"].contains c) = true) :
    unattributedChannel o c = if c == "Meta" then "Organic" else c := by
  unfold unattributedChannel
  rw [if_pos hc]

/-- C10: when every extractor failed, a Meta channel from the classifier is
replaced by Organic before the Unknown-Campaign synthesis, and consequently
no Attribution Result emitted by the per-order loop pairs channel Meta with
attribution_source None. -/
theorem claim_c10_no_meta_without_attribution :
    (∀ o : OrderData, unattributedChannel o "Meta" = "Organic") ∧
    (∀ (ads : List DailyAd) (o : OrderData),
      (processOrder ads o).attributionSource = none →
        (processOrder ads o).channel =
          (if determine_channel none none none none none = "Meta" then "Organic"
           else determine_channel none none none none none)) ∧
    (∀ (ads : List DailyAd) (o : OrderData),
      (processOrder ads o).attributionSource = none → (processOrder ads o).channel ≠ "Meta") := by
  have hchn : ∀ (ads : List DailyAd) (o : OrderData),
      (processOrder ads o).attributionSource = none →
        (processOrder ads o).channel = "Direct" := by
    intro ads o h
    rcases hE : extractAttribution o with ⟨ad, src⟩
    rcases ad with _ | rec
    · have hchan : attributionChannel none = "Direct" := by decide
      simp only [processOrder, hE, mkResultRow, resolveUnattributed, hchan] at h ⊢
      rw [unattributedChannel_listed o "Direct" (by decide)]
      decide
    · have hs := extractAttribution_sourceIsSome o rec src hE
      simp only [processOrder, hE, mkResultRow] at h
      rw [h] at hs
      cases hs
  refine ⟨?_, ?_, ?_⟩
  · intro o
    rw [unattributedChannel_listed o "Meta" (by decide)]
    decide
  · intro ads o h
    rw [hchn ads o h]
    decide
  · intro ads o h
    rw [hchn ads o h]
    decide

/-- Concrete unattributed order for the C10 witness. -/
def c10Order : OrderData :=
  { orderId := "o-10", journey := JourneyInput.absent, customAttributes := AttrsInput.absent,
    directUtm := c9EmptyDirect, referrerUrl := none, journeyText := none, attrsText := none }

/-- C10 witness: the theorem applied to a concrete order with no attribution
payloads at all. -/
theorem claim_c10_no_meta_without_attribution_witness :
    (processOrder [] c10Order).channel =
      (if determine_channel none none none none none = "Meta" then "Organic"
       else determine_channel none none none none none) ∧
    (processOrder [] c10Order).channel ≠ "Meta" := by
  constructor
  · exact claim_c10_no_meta_without_attribution.2.1 [] c10Order (by decide)
  · exact claim_c10_no_meta_without_attribution.2.2 [] c10Order (by decide)

/-! ## Granular Reconciler -/

/-- Canonical hour label `HH:00:00 - HH:59:59` (source lines 219 and 231). -/
def formatHourLabel (h : Nat) : String :=
  (if h < 10 then "0" ++ toString h else toString h) ++ ":00:00 - " ++
    (if h < 10 then "0" ++ toString h else toString h) ++ ":59:59"

/-- First one-or-two digit run of a character list, as matched by the regex
of `_normalize_hourly_window`. -/
def firstHourNum : List Char → Option Nat
  | [] => none
  | c :: rest =>
    if c.isDigit then
      match rest with
      | d :: _ =>
        if d.isDigit then some ((c.toNat - 48) * 10 + (d.toNat - 48)) else some (c.toNat - 48)
      | [] => some (c.toNat - 48)
    else firstHourNum rest

/-- `_normalize_hourly_window` (source lines 206-219): the first one-or-two
digit run gives the hour, modulo 24; `none` for a missing value or when no
digit occurs (such ad rows are discarded at line 2133). -/
def normalizeHourlyWindow : Option String → Option String
  | none => none
  | some s => (firstHourNum s.data).map (fun h => formatHourLabel (h % 24))

/-- The 8-field join key of the reconciler (source lines 2169-2174 and
2200-2205): dimension ids and names, date, hour label. -/
structure GKey where
  campaignId : String
  campaignName : String
  adsetId : String
  adsetName : String
  adId : String
  adName : String
  dateOnly : String
  hourLabel : Option String
deriving DecidableEq, Repr

/-- One row of `results_df` as prepared for the granular join (source lines
2136-2166): the ids have been normalized by `_fix_id` into canonical strings
("Unknown" for blanks), the display names filled with the empty string
(lines 2160-2162), and the timestamp reduced to its date and optional hour
label (lines 2140-2152). -/
structure OrderRow where
  orderId : String
  orderValue : Int
  totalCogs : Int
  totalSkuQuantity : Int
  channel : Option String
  attributionSource : Option String
  utmSource : Option String
  utmMedium : Option String
  utmCampaign : Option String
  utmContent : Option String
  utmTerm : Option String
  campaignId : String
  campaignName : String
  adsetId : String
  adsetName : String
  adId : String
  adName : String
  dateOnly : String
  hourLabel : Option String
deriving DecidableEq, Repr

/-- One raw hourly ad row restricted to the columns the reconciler keeps
(source lines 2120-2133 and 2208-2212), with the ids already normalized by
`_fix_id`. -/
structure AdRow where
  campaignId : String
  campaignName : String
  adsetId : String
  adsetName : String
  adId : String
  adName : String
  dateOnly : String
  hourlyWindow : Option String
  spend : Int
  cpm : Int
  cpc : Int
  ctr : Int
  purchases : Int
  purchaseValue : Int
deriving DecidableEq, Repr

/-- An ad row kept after hour normalization (source line 2133). -/
structure HourlyAd where
  campaignId : String
  campaignName : String
  adsetId : String
  adsetName : String
  adId : String
  adName : String
  dateOnly : String
  hourLabel : String
  spend : Int
  cpm : Int
  cpc : Int
  ctr : Int
  purchases : Int
  purchaseValue : Int
deriving DecidableEq, Repr

/-- Hour normalization and filtering of the ad side (source lines 2128-2133). -/
def prepareAds (ads : List AdRow) : List HourlyAd :=
  ads.filterMap (fun a =>
    (normalizeHourlyWindow a.hourlyWindow).map (fun l =>
      { campaignId := a.campaignId, campaignName := a.campaignName, adsetId := a.adsetId,
        adsetName := a.adsetName, adId := a.adId, adName := a.adName, dateOnly := a.dateOnly,
        hourLabel := l, spend := a.spend, cpm := a.cpm, cpc := a.cpc, ctr := a.ctr,
        purchases := a.purchases, purchaseValue := a.purchaseValue }))

def orderKey (o : OrderRow) : GKey :=
  { campaignId := o.campaignId, campaignName := o.campaignName, adsetId := o.adsetId,
    adsetName := o.adsetName, adId := o.adId, adName := o.adName, dateOnly := o.dateOnly,
    hourLabel := o.hourLabel }

def adKey (a : HourlyAd) : GKey :=
  { campaignId := a.campaignId, campaignName := a.campaignName, adsetId := a.adsetId,
    adsetName := a.adsetName, adId := a.adId, adName := a.adName, dateOnly := a.dateOnly,
    hourLabel := some a.hourLabel }

/-- The `_first_nonnull` aggregator (source lines 2176-2177). -/
def firstNonnull (l : List (Option String)) : Option String :=
  l.findSome? (fun x =>
    match x with
    | some v => if v != "" then some v else none
    | none => none)

/-- String order used for Python `sorted` over order ids. -/
def strLe (a b : String) : Prop := ¬ (compare a b = Ordering.gt)

instance : DecidableRel strLe := fun a b => by unfold strLe; infer_instance

/-- Python `', '.join(sorted(set(ids)))` (source line 2194). -/
def orderIdsJoin (ids : List String) : String :=
  String.intercalate ", " (List.insertionSort strLe ids.dedup)

/-- One group aggregate of the per-key order aggregation (source lines
2179-2197). -/
structure OrderAgg where
  key : GKey
  shopifyOrders : Nat
  shopifyRevenue : Int
  shopifyCogs : Int
  totalSkuQuantity : Int
  channel : Option String
  attributionSource : Option String
  utmSource : Option String
  utmMedium : Option String
  utmCampaign : Option String
  utmContent : Option String
  utmTerm : Option String
  orderIds : String
deriving DecidableEq, Repr

/-- The rows of one groupby group, in frame order. -/
def ordersGroup (orders : List OrderRow) (k : GKey) : List OrderRow :=
  orders.filter (fun o => orderKey o == k)

/-- The aggregation of one group (source lines 2182-2194): distinct order
count, sums of the financial columns, first non-null of the categorical
columns, sorted unique order ids joined into one string. -/
def aggForKey (orders : List OrderRow) (k : GKey) : OrderAgg :=
  { key := k,
    shopifyOrders := (((ordersGroup orders k).map (fun o => o.orderId)).dedup).length,
    shopifyRevenue := ((ordersGroup orders k).map (fun o => o.orderValue)).sum,
    shopifyCogs := ((ordersGroup orders k).map (fun o => o.totalCogs)).sum,
    totalSkuQuantity := ((ordersGroup orders k).map (fun o => o.totalSkuQuantity)).sum,
    channel := firstNonnull ((ordersGroup orders k).map (fun o => o.channel)),
    attributionSource := firstNonnull ((ordersGroup orders k).map (fun o => o.attributionSource)),
    utmSource := firstNonnull ((ordersGroup orders k).map (fun o => o.utmSource)),
    utmMedium := firstNonnull ((ordersGroup orders k).map (fun o => o.utmMedium)),
    utmCampaign := firstNonnull ((ordersGroup orders k).map (fun o => o.utmCampaign)),
    utmContent := firstNonnull ((ordersGroup orders k).map (fun o => o.utmContent)),
    utmTerm := firstNonnull ((ordersGroup orders k).map (fun o => o.utmTerm)),
    orderIds := orderIdsJoin ((ordersGroup orders k).map (fun o => o.orderId)) }

/-- The per-key order aggregation `orders_by_key` (source lines 2168-2197):
one aggregate per distinct key. -/
def ordersByKey (orders : List OrderRow) : List OrderAgg :=
  ((orders.map orderKey).dedup).map (aggForKey orders)

/-- The pandas merge indicator (source line 2220). -/
inductive MergeTag where
  | leftOnly
  | both
  | rightOnly
deriving DecidableEq, Repr

/-- One row of the joined granular frame.  The ad metric columns are
`Option Int` because rows that exist only on the order side carry NaN there
between the outer join and the zeroing block of lines 2343-2347 (the NA-fill
loop of lines 2228-2246 fills only the order-side columns); that fill loop
is fused into the three row constructors below. -/
structure GRow where
  campaignId : String
  campaignName : String
  adsetId : String
  adsetName : String
  adId : String
  adName : String
  dateOnly : String
  hourLabel : Option String
  spend : Option Int
  cpm : Option Int
  cpc : Option Int
  ctr : Option Int
  purchases : Option Int
  purchaseValue : Option Int
  shopifyOrders : Nat
  shopifyRevenue : Int
  shopifyCogs : Int
  totalSkuQuantity : Int
  channel : String
  attributionSource : String
  utmSource : String
  utmMedium : String
  utmCampaign : String
  utmContent : String
  utmTerm : String
  orderIds : String
  merge : MergeTag
deriving DecidableEq, Repr

/-- A joined row whose key occurs on both sides. -/
def mkBothRow (a : HourlyAd) (g : OrderAgg) : GRow :=
  { campaignId := a.campaignId, campaignName := a.campaignName, adsetId := a.adsetId,
    adsetName := a.adsetName, adId := a.adId, adName := a.adName, dateOnly := a.dateOnly,
    hourLabel := some a.hourLabel,
    spend := some a.spend, cpm := some a.cpm, cpc := some a.cpc, ctr := some a.ctr,
    purchases := some a.purchases, purchaseValue := some a.purchaseValue,
    shopifyOrders := g.shopifyOrders, shopifyRevenue := g.shopifyRevenue,
    shopifyCogs := g.shopifyCogs, totalSkuQuantity := g.totalSkuQuantity,
    channel := g.channel.getD "", attributionSource := g.attributionSource.getD "",
    utmSource := g.utmSource.getD "", utmMedium := g.utmMedium.getD "",
    utmCampaign := g.utmCampaign.getD "", utmContent := g.utmContent.getD "",
    utmTerm := g.utmTerm.getD "", orderIds := g.orderIds, merge := MergeTag.both }

/-- An ad row with no matching order aggregate: order metrics filled with
their defaults (lines 2228-2246). -/
def mkLeftOnlyRow (a : HourlyAd) : GRow :=
  { campaignId := a.campaignId, campaignName := a.campaignName, adsetId := a.adsetId,
    adsetName := a.adsetName, adId := a.adId, adName := a.adName, dateOnly := a.dateOnly,
    hourLabel := some a.hourLabel,
    spend := some a.spend, cpm := some a.cpm, cpc := some a.cpc, ctr := some a.ctr,
    purchases := some a.purchases, purchaseValue := some a.purchaseValue,
    shopifyOrders := 0, shopifyRevenue := 0, shopifyCogs := 0, totalSkuQuantity := 0,
    channel := "", attributionSource := "", utmSource := "", utmMedium := "",
    utmCampaign := "", utmContent := "", utmTerm := "", orderIds := "",
    merge := MergeTag.leftOnly }

/-- An order aggregate with no matching ad row: ad metrics are NaN until the
zeroing block. -/
def mkRightOnlyRow (g : OrderAgg) : GRow :=
  { campaignId := g.key.campaignId, campaignName := g.key.campaignName,
    adsetId := g.key.adsetId, adsetName := g.key.adsetName, adId := g.key.adId,
    adName := g.key.adName, dateOnly := g.key.dateOnly, hourLabel := g.key.hourLabel,
    spend := none, cpm := none, cpc := none, ctr := none, purchases := none,
    purchaseValue := none,
    shopifyOrders := g.shopifyOrders, shopifyRevenue := g.shopifyRevenue,
    shopifyCogs := g.shopifyCogs, totalSkuQuantity := g.totalSkuQuantity,
    channel := g.channel.getD "", attributionSource := g.attributionSource.getD "",
    utmSource := g.utmSource.getD "", utmMedium := g.utmMedium.getD "",
    utmCampaign := g.utmCampaign.getD "", utmContent := g.utmContent.getD "",
    utmTerm := g.utmTerm.getD "", orderIds := g.orderIds, merge := MergeTag.rightOnly }

/-- The outer join of the hourly ads against the per-key order aggregates on
the 8-field key (source lines 2216-2246), together with the NA-fill of the
order-side columns.  The aggregate side has unique keys by construction, so
each ad row joins at most one aggregate; aggregates matching no ad row are
appended as right-only rows, as pandas does for an outer merge. -/
def joinRows (ads : List HourlyAd) (aggs : List OrderAgg) : List GRow :=
  (ads.map (fun a =>
    match aggs.find? (fun g => g.key == adKey a) with
    | some g => mkBothRow a g
    | none => mkLeftOnlyRow a)) ++
  ((aggs.filter (fun g => !(ads.any (fun a => adKey a == g.key)))).map mkRightOnlyRow)

/-- The second classification pass of one granular row (source lines
2256-2263): the classifier re-run on the row's own UTM fields. -/
def rowClassifierChannel (r : GRow) : String :=
  determine_channel (some r.utmSource) (some r.utmMedium) (some r.utmCampaign)
    (some r.utmContent) (some r.utmTerm)

/-- `enhance_channel_detection` applied to one row (source lines 2254-2272):
the re-classification overrides the stored channel only when it is neither
"Direct/Unknown" nor "Direct". -/
def enhanceRow (r : GRow) : GRow :=
  if rowClassifierChannel r != "Direct/Unknown" && rowClassifierChannel r != "Direct" then
    { r with channel := rowClassifierChannel r }
  else r

/-- Python `notna & astype(str) != '' & astype(str) != 'null'` on an
always-present string column of the granular frame. -/
def truthyNotNull (s : String) : Bool := s != "" && s != "null"

/-- The Direct-to-Meta mask of the granular pass (source lines 2279-2290). -/
def granularMetaCond (r : GRow) : Bool :=
  r.channel == "Direct" &&
    (truthyNotNull r.utmCampaign || r.attributionSource != "" ||
      (r.campaignName != "" && !(strContains r.campaignName "Unknown")))

/-- Campaign-name rewrite of the Meta reclassification (source lines
2297-2299). -/
def metaCampaignName (uc : String) : String :=
  if uc != "" && uc != "null" then "Meta Campaign - " ++ uc else "Meta Campaign - Unknown"

/-- The Direct-to-Meta reclassification of one granular row (source lines
2293-2299). -/
def reclassMetaGranularRow (r : GRow) : GRow :=
  if granularMetaCond r then
    { r with channel := "Meta", campaignName := metaCampaignName r.utmCampaign }
  else r

/-- The Direct-to-Organic mask of the granular pass (source lines 2305-2313). -/
def granularOrganicCond (r : GRow) : Bool :=
  r.channel == "Direct" && (truthyNotNull r.utmSource || truthyNotNull r.utmMedium)

/-- The Direct-to-Organic reclassification of one granular row (source lines
2317-2323; the campaign-name apply at line 2321 discards its result and is a
no-op). -/
def reclassOrganicGranularRow (r : GRow) : GRow :=
  if granularOrganicCond r then { r with channel := "Organic" } else r

/-- Both granular reclassification passes in source order. -/
def reclassifyGranularRow (r : GRow) : GRow :=
  reclassOrganicGranularRow (reclassMetaGranularRow r)

/-- Unknown-name rewrite of the unmatched-order block (source lines
2333-2341). -/
def unknownGranularName (kind ch : String) : String :=
  if ch != "" then "Unknown " ++ kind ++ " - " ++ ch
  else "Unknown " ++ kind ++ " - Direct/Unknown"

/-- The unmatched-order block applied to one row (source lines 2330-2347):
right-only rows get Unknown display names keyed by their channel and all ad
metric columns set to zero. -/
def unmatchedFixRow (r : GRow) : GRow :=
  if r.merge == MergeTag.rightOnly then
    { r with
      campaignName := unknownGranularName "Campaign" r.channel,
      adsetName := unknownGranularName "Adset" r.channel,
      adName := unknownGranularName "Ad" r.channel,
      spend := some 0, cpm := some 0, cpc := some 0, ctr := some 0,
      purchases := some 0, purchaseValue := some 0 }
  else r

/-- The de-duplication key of the final guard (source line 2363; `date_start`
is `to_datetime(date_only)`, an injective image of `date_only`, so keying on
`date_only` gives the same partition). -/
def guardKey (r : GRow) : GKey :=
  { campaignId := r.campaignId, campaignName := r.campaignName, adsetId := r.adsetId,
    adsetName := r.adsetName, adId := r.adId, adName := r.adName, dateOnly := r.dateOnly,
    hourLabel := r.hourLabel }

def guardGroup (rows : List GRow) (k : GKey) : List GRow :=
  rows.filter (fun r => guardKey r == k)

/-- One collapsed group of the de-duplication guard (source lines 2369-2378):
numeric columns are summed (pandas sum skips NaN), categorical columns take
their first value.  Columns absent from the aggregation map (cpm, cpc, ctr
and the platform purchase columns) are dropped by the pandas groupby and
modelled as `none`; the merge tag was already dropped by the source at line
2353 and is kept here only as inert bookkeeping (first value). -/
def collapseGroup (rows : List GRow) (k : GKey) : GRow :=
  { campaignId := k.campaignId, campaignName := k.campaignName, adsetId := k.adsetId,
    adsetName := k.adsetName, adId := k.adId, adName := k.adName, dateOnly := k.dateOnly,
    hourLabel := k.hourLabel,
    spend := some (((guardGroup rows k).filterMap (fun r => r.spend)).sum),
    cpm := none, cpc := none, ctr := none, purchases := none, purchaseValue := none,
    shopifyOrders := ((guardGroup rows k).map (fun r => r.shopifyOrders)).sum,
    shopifyRevenue := ((guardGroup rows k).map (fun r => r.shopifyRevenue)).sum,
    shopifyCogs := ((guardGroup rows k).map (fun r => r.shopifyCogs)).sum,
    totalSkuQuantity := ((guardGroup rows k).map (fun r => r.totalSkuQuantity)).sum,
    channel := ((((guardGroup rows k).map (fun r => r.channel)).head?).getD ""),
    attributionSource := ((((guardGroup rows k).map (fun r => r.attributionSource)).head?).getD ""),
    utmSource := ((((guardGroup rows k).map (fun r => r.utmSource)).head?).getD ""),
    utmMedium := ((((guardGroup rows k).map (fun r => r.utmMedium)).head?).getD ""),
    utmCampaign := ((((guardGroup rows k).map (fun r => r.utmCampaign)).head?).getD ""),
    utmContent := ((((guardGroup rows k).map (fun r => r.utmContent)).head?).getD ""),
    utmTerm := ((((guardGroup rows k).map (fun r => r.utmTerm)).head?).getD ""),
    orderIds := ((((guardGroup rows k).map (fun r => r.orderIds)).head?).getD ""),
    merge := ((((guardGroup rows k).map (fun r => r.merge)).head?).getD MergeTag.both) }

/-- The defensive de-duplication guard (source lines 2362-2378): when any
duplicate key exists the frame is collapsed to one row per distinct key. -/
def dedupGuard (rows : List GRow) : List GRow :=
  if ((rows.map guardKey).Nodup : Prop) then rows
  else ((rows.map guardKey).dedup).map (collapseGroup rows)

/-- Final sort comparator (source line 2381): date ascending, hour label
ascending with missing labels last, revenue descending. -/
def rowLeB (a b : GRow) : Bool :=
  if a.dateOnly != b.dateOnly then compare a.dateOnly b.dateOnly == Ordering.lt
  else if a.hourLabel != b.hourLabel then
    match a.hourLabel, b.hourLabel with
    | some x, some y => compare x y == Ordering.lt
    | none, _ => false
    | _, none => true
  else decide (b.shopifyRevenue ≤ a.shopifyRevenue)

def rowLe (a b : GRow) : Prop := rowLeB a b = true

instance : DecidableRel rowLe := fun a b => by unfold rowLe; infer_instance

def sortGranular (rows : List GRow) : List GRow := List.insertionSort rowLe rows

/-- Stage: the outer join with NA-fill (source lines 2120-2246). -/
def granularJoined (ads : List AdRow) (orders : List OrderRow) : List GRow :=
  joinRows (prepareAds ads) (ordersByKey orders)

/-- Stage: after the second classification pass (source lines 2253-2272). -/
def granularEnhanced (ads : List AdRow) (orders : List OrderRow) : List GRow :=
  (granularJoined ads orders).map enhanceRow

/-- Stage: after the two Direct reclassification passes (source lines
2274-2323). -/
def granularReclassified (ads : List AdRow) (orders : List OrderRow) : List GRow :=
  (granularEnhanced ads orders).map reclassifyGranularRow

/-- Stage: after the unmatched-order block (source lines 2325-2349). -/
def granularUnmatchedFixed (ads : List AdRow) (orders : List OrderRow) : List GRow :=
  (granularReclassified ads orders).map unmatchedFixRow

/-- The Granular Reconciler `create_granular_insights` (source lines
2097-2450): empty-input guard (line 2116), join pipeline, de-duplication
guard and final sort. -/
def create_granular_insights (ads : List AdRow) (orders : List OrderRow) : List GRow :=
  if orders.isEmpty || ads.isEmpty then []
  else sortGranular (dedupGuard (granularUnmatchedFixed ads orders))

/-! ## Claim C1: at most one row per exact key -/

lemma guardKey_collapseGroup (rows : List GRow) (k : GKey) :
    guardKey (collapseGroup rows k) = k := rfl

lemma dedupGuard_keys_nodup (rows : List GRow) : ((dedupGuard rows).map guardKey).Nodup := by
  unfold dedupGuard
  split
  · assumption
  · rw [List.map_map]
    have hid : ∀ k ∈ (rows.map guardKey).dedup, (guardKey ∘ collapseGroup rows) k = id k :=
      fun k _ => rfl
    rw [List.map_congr_left hid, List.map_id]
    exact List.nodup_dedup _

lemma create_granular_insights_keys_nodup (ads : List AdRow) (orders : List OrderRow) :
    ((create_granular_insights ads orders).map guardKey).Nodup := by
  unfold create_granular_insights
  split
  · simp
  · have h1 := dedupGuard_keys_nodup (granularUnmatchedFixed ads orders)
    have hp : List.Perm (sortGranular (dedupGuard (granularUnmatchedFixed ads orders)))
        (dedupGuard (granularUnmatchedFixed ads orders)) :=
      List.perm_insertionSort rowLe _
    exact ((hp.map guardKey).nodup_iff).mpr h1

/-- Fixture for the duplicated-order part of C1: two distinct orders sharing
one exact 8-field key, and one hourly ad row on the same key. -/
def c1Order1 : OrderRow :=
  { orderId := "O1", orderValue := 1000, totalCogs := 400, totalSkuQuantity := 2,
    channel := some "Meta", attributionSource := some "customer_journey",
    utmSource := some "facebook", utmMedium := some "cpc", utmCampaign := some "c1",
    utmContent := some "300", utmTerm := none,
    campaignId := "100", campaignName := "Camp", adsetId := "200", adsetName := "Adset",
    adId := "300", adName := "Ad", dateOnly := "2025-07-01",
    hourLabel := some "13:00:00 - 13:59:59" }

def c1Order2 : OrderRow :=
  { orderId := "O2", orderValue := 500, totalCogs := 100, totalSkuQuantity := 1,
    channel := some "Meta", attributionSource := some "customer_journey",
    utmSource := some "facebook", utmMedium := some "cpc", utmCampaign := some "c1",
    utmContent := some "300", utmTerm := none,
    campaignId := "100", campaignName := "Camp", adsetId := "200", adsetName := "Adset",
    adId := "300", adName := "Ad", dateOnly := "2025-07-01",
    hourLabel := some "13:00:00 - 13:59:59" }

def c1Ad : AdRow :=
  { campaignId := "100", campaignName := "Camp", adsetId := "200", adsetName := "Adset",
    adId := "300", adName := "Ad", dateOnly := "2025-07-01",
    hourlyWindow := some "13:00 - 13:59", spend := 100, cpm := 5, cpc := 2, ctr := 1,
    purchases := 3, purchaseValue := 700 }

/-- The single output row of the fixture. -/
def c1ExpectedRow : GRow :=
  { campaignId := "100", campaignName := "Camp", adsetId := "200", adsetName := "Adset",
    adId := "300", adName := "Ad", dateOnly := "2025-07-01",
    hourLabel := some "13:00:00 - 13:59:59",
    spend := some 100, cpm := some 5, cpc := some 2, ctr := some 1, purchases := some 3,
    purchaseValue := some 700,
    shopifyOrders := 2, shopifyRevenue := 1500, shopifyCogs := 500, totalSkuQuantity := 3,
    channel := "Meta", attributionSource := "customer_journey", utmSource := "facebook",
    utmMedium := "cpc", utmCampaign := "c1", utmContent := "300", utmTerm := "",
    orderIds := "O1, O2", merge := MergeTag.both }

/-- C1: the reconciler output carries at most one row per exact 8-field key
for every input, and on the fixture of two distinct orders sharing one key
the output is exactly one row for that key with shopify_orders = 2 and
shopify_revenue equal to the sum of the two order values. -/
theorem claim_c1_at_most_one_row_per_key :
    (∀ (ads : List AdRow) (orders : List OrderRow),
      ((create_granular_insights ads orders).map guardKey).Nodup) ∧
    create_granular_insights [c1Ad] [c1Order1, c1Order2] = [c1ExpectedRow] ∧
    guardKey c1ExpectedRow = orderKey c1Order1 ∧
    orderKey c1Order2 = orderKey c1Order1 ∧
    c1Order1.orderId ≠ c1Order2.orderId ∧
    c1ExpectedRow.shopifyOrders = 2 ∧
    c1ExpectedRow.shopifyRevenue = c1Order1.orderValue + c1Order2.orderValue := by
  refine ⟨create_granular_insights_keys_nodup, ?_, ?_, ?_, ?_, ?_, ?_⟩ <;> decide

/-! ## Claim C7: the second classification pass -/

/-- Fixture for the C7 counterexample: one ad row and one order with channel
Meta but no UTM fields, on different keys. -/
def c7Ad : AdRow :=
  { campaignId := "900", campaignName := "AdCamp", adsetId := "901", adsetName := "AdSet",
    adId := "902", adName := "AdName", dateOnly := "2025-07-01",
    hourlyWindow := some "07:00 - 07:59", spend := 10, cpm := 1, cpc := 1, ctr := 1,
    purchases := 0, purchaseValue := 0 }

def c7Order : OrderRow :=
  { orderId := "O7", orderValue := 100, totalCogs := 10, totalSkuQuantity := 1,
    channel := some "Meta", attributionSource := none,
    utmSource := none, utmMedium := none, utmCampaign := none, utmContent := none,
    utmTerm := none,
    campaignId := "Unknown", campaignName := "", adsetId := "Unknown", adsetName := "",
    adId := "Unknown", adName := "", dateOnly := "2025-07-02",
    hourLabel := some "09:00:00 - 09:59:59" }

/-- C7 counterexample: after the second classification pass there is a row
whose channel differs from the classifier re-run on its own UTM fields — the
pass keeps the prior channel whenever the classifier answers Direct, so the
claim that every row's channel equals the re-run result is false. -/
theorem claim_c7_counterexample :
    ∃ r ∈ granularEnhanced [c7Ad] [c7Order],
      r.channel ≠ determine_channel (some r.utmSource) (some r.utmMedium) (some r.utmCampaign)
        (some r.utmContent) (some r.utmTerm) := by
  decide

/-- C7 amended: the second pass re-runs the classifier on each joined row's
own UTM fields and overrides the stored channel with the result only when
that result is neither "Direct/Unknown" nor "Direct"; otherwise the channel
assigned earlier is retained.  The row's UTM fields and merge indicator are
untouched. -/
theorem claim_c7_enhance_channel :
    (∀ (ads : List AdRow) (orders : List OrderRow),
      granularEnhanced ads orders = (granularJoined ads orders).map enhanceRow) ∧
    (∀ r : GRow,
      (enhanceRow r).channel =
        (if rowClassifierChannel r ≠ "Direct/Unknown" ∧ rowClassifierChannel r ≠ "Direct" then
          rowClassifierChannel r
        else r.channel)) ∧
    (∀ r : GRow,
      (enhanceRow r).utmSource = r.utmSource ∧ (enhanceRow r).utmMedium = r.utmMedium ∧
      (enhanceRow r).utmCampaign = r.utmCampaign ∧ (enhanceRow r).utmContent = r.utmContent ∧
      (enhanceRow r).utmTerm = r.utmTerm ∧ (enhanceRow r).merge = r.merge) := by
  refine ⟨fun ads orders => rfl, ?_, ?_⟩
  · intro r
    unfold enhanceRow
    by_cases h : rowClassifierChannel r ≠ "Direct/Unknown" ∧ rowClassifierChannel r ≠ "Direct"
    · have hb : (rowClassifierChannel r != "Direct/Unknown" &&
          rowClassifierChannel r != "Direct") = true := by
        simp [h.1, h.2]
      rw [if_pos hb, if_pos h]
    · have hb : (rowClassifierChannel r != "Direct/Unknown" &&
          rowClassifierChannel r != "Direct") = false := by
        rcases not_and_or.mp h with h1 | h1 <;> simp at h1 <;> simp [h1]
      rw [hb]
      rw [if_neg h]
      simp
  · intro r
    unfold enhanceRow
    split <;> simp

/-! ## Claim C8: the two Direct reclassification passes -/

/-- Python `notna & astype(str) != '' & != 'null'` on a nullable column of
`results_df` (source lines 1053-1055, 1074-1079). -/
def truthyNotNullOpt : Option String → Bool
  | none => false
  | some s => s != "" && s != "null"

/-- The Direct-to-Meta mask of the per-order pass (source lines 1052-1063). -/
def orderMetaCond (r : ResultRow) : Bool :=
  r.channel == "Direct" &&
    (truthyNotNullOpt r.utmCampaign || truthyOpt r.attributionSource ||
      (match r.campaignName with
       | none => false
       | some cn => cn != "" && !(strContains cn "Unknown")))

/-- The Direct-to-Meta reclassification of one result row (source lines
1064-1068). -/
def reclassMetaOrderRow (r : ResultRow) : ResultRow :=
  if orderMetaCond r then { r with channel := "Meta", isPaidChannel := true } else r

/-- The Direct-to-Organic mask of the per-order pass (source lines
1073-1081). -/
def orderOrganicCond (r : ResultRow) : Bool :=
  r.channel == "Direct" && (truthyNotNullOpt r.utmSource || truthyNotNullOpt r.utmMedium)

/-- The Direct-to-Organic reclassification of one result row (source lines
1083-1085). -/
def reclassOrganicOrderRow (r : ResultRow) : ResultRow :=
  if orderOrganicCond r then { r with channel := "Organic" } else r

/-- Both per-order reclassification passes in source order. -/
def reclassifyOrderRow (r : ResultRow) : ResultRow :=
  reclassOrganicOrderRow (reclassMetaOrderRow r)

/-- Modelled from the spec wording of C8: Direct with any non-empty campaign
name, attribution source or UTM campaign goes to Meta; any remaining Direct
with a non-empty UTM source or medium goes to Organic. -/
def specReclassChannel (channel campaignName attributionSource utmCampaign
    utmSource utmMedium : String) : String :=
  if channel == "Direct" && (campaignName != "" || attributionSource != "" ||
      utmCampaign != "") then "Meta"
  else if channel == "Direct" && (utmSource != "" || utmMedium != "") then "Organic"
  else channel

/-- A Direct granular row whose campaign name is non-empty but contains
"Unknown", with all other signals empty. -/
def c8Row : GRow :=
  { campaignId := "Unknown", campaignName := "Unknown Campaign - Organic",
    adsetId := "Unknown", adsetName := "", adId := "Unknown", adName := "",
    dateOnly := "2025-07-01", hourLabel := some "10:00:00 - 10:59:59",
    spend := some 0, cpm := some 0, cpc := some 0, ctr := some 0, purchases := some 0,
    purchaseValue := some 0,
    shopifyOrders := 1, shopifyRevenue := 100, shopifyCogs := 10, totalSkuQuantity := 1,
    channel := "Direct", attributionSource := "", utmSource := "", utmMedium := "",
    utmCampaign := "", utmContent := "", utmTerm := "", orderIds := "O1",
    merge := MergeTag.rightOnly }

/-- C8 counterexample: on a Direct row whose campaign name is non-empty but
contains "Unknown", the claim prescribes reclassification to Meta, while the
implemented pass (which additionally requires the campaign name not to
contain "Unknown") leaves the row Direct. -/
theorem claim_c8_counterexample :
    specReclassChannel c8Row.channel c8Row.campaignName c8Row.attributionSource
        c8Row.utmCampaign c8Row.utmSource c8Row.utmMedium = "Meta" ∧
    (reclassifyGranularRow c8Row).channel = "Direct" ∧
    ("Meta" : String) ≠ "Direct" := by
  refine ⟨?_, ?_, ?_⟩ <;> decide

/-- C8 amended: in both passes a Direct row becomes Meta when its UTM
campaign is non-empty and not the literal "null", or its attribution source
is non-empty, or its campaign name is non-empty and does not contain
"Unknown"; a remaining Direct row becomes Organic when its UTM source or
UTM medium is non-empty and not the literal "null"; rows not classified
Direct are left unchanged by both passes. -/
theorem claim_c8_direct_reclassification :
    (∀ r : ResultRow,
      (reclassifyOrderRow r).channel =
        (if r.channel ≠ "Direct" then r.channel
         else if orderMetaCond r then "Meta"
         else if orderOrganicCond r then "Organic"
         else "Direct")) ∧
    (∀ r : ResultRow, r.channel ≠ "Direct" → reclassifyOrderRow r = r) ∧
    (∀ r : GRow,
      (reclassifyGranularRow r).channel =
        (if r.channel ≠ "Direct" then r.channel
         else if granularMetaCond r then "Meta"
         else if granularOrganicCond r then "Organic"
         else "Direct")) ∧
    (∀ r : GRow, r.channel ≠ "Direct" → reclassifyGranularRow r = r) := by
  refine ⟨?_, ?_, ?_, ?_⟩
  · intro r
    by_cases hm : orderMetaCond r = true
    · have hd : r.channel = "Direct" := by
        unfold orderMetaCond at hm
        rw [Bool.and_eq_true] at hm
        exact eq_of_beq hm.1
      have h1 : reclassMetaOrderRow r = { r with channel := "Meta", isPaidChannel := true } := by
        unfold reclassMetaOrderRow
        rw [if_pos hm]
      have h2 : orderOrganicCond (reclassMetaOrderRow r) = false := by
        rw [h1]
        unfold orderOrganicCond
        simp
      unfold reclassifyOrderRow reclassOrganicOrderRow
      rw [h2]
      simp [h1, hd, hm]
    · have h1 : reclassMetaOrderRow r = r := by
        unfold reclassMetaOrderRow
        simp [hm]
      by_cases ho : orderOrganicCond r = true
      · have hd : r.channel = "Direct" := by
          unfold orderOrganicCond at ho
          rw [Bool.and_eq_true] at ho
          exact eq_of_beq ho.1
        unfold reclassifyOrderRow reclassOrganicOrderRow
        rw [h1, if_pos ho]
        simp [hd, hm, ho]
      · have h2 : reclassOrganicOrderRow r = r := by
          unfold reclassOrganicOrderRow
          simp [ho]
        unfold reclassifyOrderRow
        rw [h1, h2]
        by_cases hd : r.channel = "Direct"
        · simp [hd, hm, ho]
        · simp [hd]
  · intro r hd
    have hm : orderMetaCond r = false := by
      unfold orderMetaCond
      simp [hd]
    have ho : orderOrganicCond r = false := by
      unfold orderOrganicCond
      simp [hd]
    unfold reclassifyOrderRow reclassOrganicOrderRow reclassMetaOrderRow
    simp [hm, ho]
  · intro r
    by_cases hm : granularMetaCond r = true
    · have hd : r.channel = "Direct" := by
        unfold granularMetaCond at hm
        rw [Bool.and_eq_true] at hm
        exact eq_of_beq hm.1
      have h1 : reclassMetaGranularRow r =
          { r with channel := "Meta", campaignName := metaCampaignName r.utmCampaign } := by
        unfold reclassMetaGranularRow
        rw [if_pos hm]
      have h2 : granularOrganicCond (reclassMetaGranularRow r) = false := by
        rw [h1]
        unfold granularOrganicCond
        simp
      unfold reclassifyGranularRow reclassOrganicGranularRow
      rw [h2]
      simp [h1, hd, hm]
    · have h1 : reclassMetaGranularRow r = r := by
        unfold reclassMetaGranularRow
        simp [hm]
      by_cases ho : granularOrganicCond r = true
      · have hd : r.channel = "Direct" := by
          unfold granularOrganicCond at ho
          rw [Bool.and_eq_true] at ho
          exact eq_of_beq ho.1
        unfold reclassifyGranularRow reclassOrganicGranularRow
        rw [h1, if_pos ho]
        simp [hd, hm, ho]
      · have h2 : reclassOrganicGranularRow r = r := by
          unfold reclassOrganicGranularRow
          simp [ho]
        unfold reclassifyGranularRow
        rw [h1, h2]
        by_cases hd : r.channel = "Direct"
        · simp [hd, hm, ho]
        · simp [hd]
  · intro r hd
    have hm : granularMetaCond r = false := by
      unfold granularMetaCond
      simp [hd]
    have ho : granularOrganicCond r = false := by
      unfold granularOrganicCond
      simp [hd]
    unfold reclassifyGranularRow reclassOrganicGranularRow reclassMetaGranularRow
    simp [hm, ho]

/-- A non-Direct row for the C8 witness. -/
def c8WitnessGRow : GRow :=
  { c8Row with channel := "Organic" }

def c8WitnessOrderRow : ResultRow :=
  { orderId := "O1", channel := "Google", attributionSource := some "direct_utm",
    attributionId := some "g1", attributionType := some "campaign",
    utmSource := some "google", utmMedium := some "cpc", utmCampaign := some "g1",
    utmContent := none, utmTerm := none, campaignId := none, campaignName := none,
    adsetId := none, adsetName := none, adId := none, adName := none,
    isAttributed := true, isPaidChannel := true }

/-- C8 witness: the amended theorem applied to concrete non-Direct rows. -/
theorem claim_c8_direct_reclassification_witness :
    reclassifyOrderRow c8WitnessOrderRow = c8WitnessOrderRow ∧
    reclassifyGranularRow c8WitnessGRow = c8WitnessGRow := by
  constructor
  · exact claim_c8_direct_reclassification.2.1 c8WitnessOrderRow (by decide)
  · exact claim_c8_direct_reclassification.2.2.2 c8WitnessGRow (by decide)

/-! ## Claim C6: fill behavior of the outer join -/

lemma enhanceRow_preserves (r : GRow) :
    (enhanceRow r).merge = r.merge ∧ (enhanceRow r).shopifyOrders = r.shopifyOrders ∧
    (enhanceRow r).shopifyRevenue = r.shopifyRevenue ∧
    (enhanceRow r).shopifyCogs = r.shopifyCogs ∧
    (enhanceRow r).totalSkuQuantity = r.totalSkuQuantity ∧
    (enhanceRow r).orderIds = r.orderIds := by
  unfold enhanceRow
  split <;> simp

lemma enhanceRow_channel_ne (r : GRow) (h : r.channel ≠ "") : (enhanceRow r).channel ≠ "" := by
  unfold enhanceRow
  split
  · show rowClassifierChannel r ≠ ""
    unfold rowClassifierChannel
    exact determine_channel_ne_empty _ _ _ _ _
  · exact h

lemma reclassifyGranularRow_preserves (r : GRow) :
    (reclassifyGranularRow r).merge = r.merge ∧
    (reclassifyGranularRow r).shopifyOrders = r.shopifyOrders ∧
    (reclassifyGranularRow r).shopifyRevenue = r.shopifyRevenue ∧
    (reclassifyGranularRow r).shopifyCogs = r.shopifyCogs ∧
    (reclassifyGranularRow r).totalSkuQuantity = r.totalSkuQuantity ∧
    (reclassifyGranularRow r).orderIds = r.orderIds := by
  unfold reclassifyGranularRow reclassOrganicGranularRow reclassMetaGranularRow
  repeat' split
  all_goals simp

lemma reclassifyGranularRow_channel_ne (r : GRow) (h : r.channel ≠ "") :
    (reclassifyGranularRow r).channel ≠ "" := by
  unfold reclassifyGranularRow reclassOrganicGranularRow reclassMetaGranularRow
  repeat' split
  all_goals simp_all

lemma unmatchedFixRow_preserves (r : GRow) :
    (unmatchedFixRow r).merge = r.merge ∧ (unmatchedFixRow r).channel = r.channel ∧
    (unmatchedFixRow r).shopifyOrders = r.shopifyOrders ∧
    (unmatchedFixRow r).shopifyRevenue = r.shopifyRevenue ∧
    (unmatchedFixRow r).shopifyCogs = r.shopifyCogs ∧
    (unmatchedFixRow r).totalSkuQuantity = r.totalSkuQuantity ∧
    (unmatchedFixRow r).orderIds = r.orderIds := by
  unfold unmatchedFixRow
  split <;> simp

lemma joinRows_merge_cases (ads : List HourlyAd) (aggs : List OrderAgg) (r : GRow)
    (hr : r ∈ joinRows ads aggs) :
    (∃ a g, r = mkBothRow a g) ∨ (∃ a, r = mkLeftOnlyRow a) ∨
      (∃ g ∈ aggs, r = mkRightOnlyRow g) := by
  unfold joinRows at hr
  rcases List.mem_append.mp hr with h | h
  · rcases List.mem_map.mp h with ⟨a, ha, heq⟩
    rcases hfind : aggs.find? (fun g => g.key == adKey a) with _ | g
    · simp only [hfind] at heq
      exact Or.inr (Or.inl ⟨a, heq.symm⟩)
    · simp only [hfind] at heq
      exact Or.inl ⟨a, g, heq.symm⟩
  · rcases List.mem_map.mp h with ⟨g, hg, heq⟩
    exact Or.inr (Or.inr ⟨g, (List.mem_filter.mp hg).1, heq.symm⟩)

lemma firstNonnull_of_all (l : List (Option String))
    (h : ∀ x ∈ l, x ≠ none ∧ x ≠ some "") (hne : l ≠ []) :
    ∃ v, firstNonnull l = some v ∧ v ≠ "" := by
  cases l with
  | nil => exact absurd rfl hne
  | cons x rest =>
    rcases x with _ | v
    · exact absurd rfl (h none (List.mem_cons_self _ _)).1
    · have hv : v ≠ "" := by
        intro hv'
        exact (h (some v) (List.mem_cons_self _ _)).2 (by rw [hv'])
      refine ⟨v, ?_, hv⟩
      unfold firstNonnull
      rw [List.findSome?_cons]
      simp [hv]

lemma ordersGroup_nonempty (orders : List OrderRow) (k : GKey)
    (hk : k ∈ (orders.map orderKey).dedup) : ordersGroup orders k ≠ [] := by
  rcases List.mem_map.mp (List.mem_dedup.mp hk) with ⟨o, ho, hko⟩
  have : o ∈ ordersGroup orders k := by
    unfold ordersGroup
    rw [List.mem_filter]
    exact ⟨ho, by simp [hko]⟩
  intro hnil
  rw [hnil] at this
  exact List.not_mem_nil o this

lemma ordersByKey_channel_ne (orders : List OrderRow)
    (hch : ∀ o ∈ orders, o.channel ≠ none ∧ o.channel ≠ some "")
    (g : OrderAgg) (hg : g ∈ ordersByKey orders) : g.channel.getD "" ≠ "" := by
  unfold ordersByKey at hg
  rcases List.mem_map.mp hg with ⟨k, hk, heq⟩
  have hgrp : ordersGroup orders k ≠ [] := ordersGroup_nonempty orders k hk
  have hall : ∀ x ∈ (ordersGroup orders k).map (fun o => o.channel),
      x ≠ none ∧ x ≠ some "" := by
    intro x hx
    rcases List.mem_map.mp hx with ⟨o, ho, hxo⟩
    have ho' : o ∈ orders := (List.mem_filter.mp ho).1
    rw [← hxo]
    exact hch o ho'
  have hne : (ordersGroup orders k).map (fun o => o.channel) ≠ [] := by
    intro hnil
    exact hgrp (List.map_eq_nil.mp hnil)
  obtain ⟨v, hfn, hv⟩ := firstNonnull_of_all _ hall hne
  rw [← heq]
  show (aggForKey orders k).channel.getD "" ≠ ""
  unfold aggForKey
  simp only [hfn]
  exact hv

lemma pipeRow_preserves (r0 : GRow) :
    (unmatchedFixRow (reclassifyGranularRow (enhanceRow r0))).merge = r0.merge ∧
    (unmatchedFixRow (reclassifyGranularRow (enhanceRow r0))).shopifyOrders =
      r0.shopifyOrders ∧
    (unmatchedFixRow (reclassifyGranularRow (enhanceRow r0))).shopifyRevenue =
      r0.shopifyRevenue ∧
    (unmatchedFixRow (reclassifyGranularRow (enhanceRow r0))).shopifyCogs = r0.shopifyCogs ∧
    (unmatchedFixRow (reclassifyGranularRow (enhanceRow r0))).totalSkuQuantity =
      r0.totalSkuQuantity ∧
    (unmatchedFixRow (reclassifyGranularRow (enhanceRow r0))).orderIds = r0.orderIds := by
  have h1 := unmatchedFixRow_preserves (reclassifyGranularRow (enhanceRow r0))
  have h2 := reclassifyGranularRow_preserves (enhanceRow r0)
  have h3 := enhanceRow_preserves r0
  refine ⟨?_, ?_, ?_, ?_, ?_, ?_⟩
  · rw [h1.1, h2.1, h3.1]
  · rw [h1.2.2.1, h2.2.1, h3.2.1]
  · rw [h1.2.2.2.1, h2.2.2.1, h3.2.2.1]
  · rw [h1.2.2.2.2.1, h2.2.2.2.1, h3.2.2.2.1]
  · rw [h1.2.2.2.2.2.1, h2.2.2.2.2.1, h3.2.2.2.2.1]
  · rw [h1.2.2.2.2.2.2, h2.2.2.2.2.2, h3.2.2.2.2.2]

lemma unmatchedFixRow_rightOnly (r3 : GRow) (hm : r3.merge = MergeTag.rightOnly)
    (hne : r3.channel ≠ "") :
    (unmatchedFixRow r3).spend = some 0 ∧ (unmatchedFixRow r3).cpm = some 0 ∧
    (unmatchedFixRow r3).cpc = some 0 ∧ (unmatchedFixRow r3).ctr = some 0 ∧
    (unmatchedFixRow r3).purchases = some 0 ∧ (unmatchedFixRow r3).purchaseValue = some 0 ∧
    (unmatchedFixRow r3).channel ≠ "" ∧
    (unmatchedFixRow r3).campaignName = "Unknown Campaign - " ++ (unmatchedFixRow r3).channel ∧
    (unmatchedFixRow r3).adsetName = "Unknown Adset - " ++ (unmatchedFixRow r3).channel ∧
    (unmatchedFixRow r3).adName = "Unknown Ad - " ++ (unmatchedFixRow r3).channel := by
  unfold unmatchedFixRow
  rw [if_pos (by simp [hm] : (r3.merge == MergeTag.rightOnly) = true)]
  refine ⟨rfl, rfl, rfl, rfl, rfl, rfl, hne, ?_, ?_, ?_⟩
  · show unknownGranularName "Campaign" r3.channel = "Unknown Campaign - " ++ r3.channel
    unfold unknownGranularName
    rw [if_pos (by simp [hne] : (r3.channel != "") = true)]
    rfl
  · show unknownGranularName "Adset" r3.channel = "Unknown Adset - " ++ r3.channel
    unfold unknownGranularName
    rw [if_pos (by simp [hne] : (r3.channel != "") = true)]
    rfl
  · show unknownGranularName "Ad" r3.channel = "Unknown Ad - " ++ r3.channel
    unfold unknownGranularName
    rw [if_pos (by simp [hne] : (r3.channel != "") = true)]
    rfl

/-- C6: after the unmatched-order block, every row present only on the order
side has every ad metric equal to zero and its campaign, adset and ad names
rewritten to the Unknown pattern keyed by its channel; every row present
only on the ad side has all Shopify order metrics equal to zero.  The
hypothesis states the invariant of the per-order processor that every order
row carries a non-empty channel. -/
theorem claim_c6_outer_join_fill (ads : List AdRow) (orders : List OrderRow)
    (hch : ∀ o ∈ orders, o.channel ≠ none ∧ o.channel ≠ some "") :
    ∀ r ∈ granularUnmatchedFixed ads orders,
      (r.merge = MergeTag.rightOnly →
        r.spend = some 0 ∧ r.cpm = some 0 ∧ r.cpc = some 0 ∧ r.ctr = some 0 ∧
          r.purchases = some 0 ∧ r.purchaseValue = some 0 ∧ r.channel ≠ "" ∧
          r.campaignName = "Unknown Campaign - " ++ r.channel ∧
          r.adsetName = "Unknown Adset - " ++ r.channel ∧
          r.adName = "Unknown Ad - " ++ r.channel) ∧
      (r.merge = MergeTag.leftOnly →
        r.shopifyOrders = 0 ∧ r.shopifyRevenue = 0 ∧ r.shopifyCogs = 0 ∧
          r.totalSkuQuantity = 0 ∧ r.orderIds = "") := by
  intro r hr
  obtain ⟨r2, hr2, he2⟩ := List.mem_map.mp hr
  obtain ⟨r1, hr1, he1⟩ := List.mem_map.mp hr2
  obtain ⟨r0, hr0, he0⟩ := List.mem_map.mp hr1
  subst he2
  subst he1
  subst he0
  have hpipe := pipeRow_preserves r0
  rcases joinRows_merge_cases _ _ r0 hr0 with ⟨a, g, he⟩ | ⟨a, he⟩ | ⟨g, hg, he⟩
  · constructor
    · intro hro
      rw [hpipe.1, he] at hro
      simp [mkBothRow] at hro
    · intro hlo
      rw [hpipe.1, he] at hlo
      simp [mkBothRow] at hlo
  · constructor
    · intro hro
      rw [hpipe.1, he] at hro
      simp [mkLeftOnlyRow] at hro
    · intro _
      refine ⟨?_, ?_, ?_, ?_, ?_⟩
      · rw [hpipe.2.1, he]
        rfl
      · rw [hpipe.2.2.1, he]
        rfl
      · rw [hpipe.2.2.2.1, he]
        rfl
      · rw [hpipe.2.2.2.2.1, he]
        rfl
      · rw [hpipe.2.2.2.2.2, he]
        rfl
  · have hch0 : r0.channel ≠ "" := by
      rw [he]
      show g.channel.getD "" ≠ ""
      exact ordersByKey_channel_ne orders hch g hg
    have hch3 : (reclassifyGranularRow (enhanceRow r0)).channel ≠ "" :=
      reclassifyGranularRow_channel_ne _ (enhanceRow_channel_ne _ hch0)
    have hm3 : (reclassifyGranularRow (enhanceRow r0)).merge = MergeTag.rightOnly := by
      rw [(reclassifyGranularRow_preserves _).1, (enhanceRow_preserves _).1, he]
      rfl
    constructor
    · intro _
      exact unmatchedFixRow_rightOnly _ hm3 hch3
    · intro hlo
      rw [(unmatchedFixRow_preserves _).1, hm3] at hlo
      simp at hlo

/-- Fixture for the C6 witness: one ad row and one order on different keys,
so the stage output has exactly one left-only and one right-only row. -/
def c6Ad : AdRow :=
  { campaignId := "800", campaignName := "Solo", adsetId := "801", adsetName := "SoloSet",
    adId := "802", adName := "SoloAd", dateOnly := "2025-07-01",
    hourlyWindow := some "09:15 - 09:59", spend := 50, cpm := 2, cpc := 1, ctr := 1,
    purchases := 1, purchaseValue := 80 }

def c6Order : OrderRow :=
  { orderId := "O9", orderValue := 250, totalCogs := 100, totalSkuQuantity := 1,
    channel := some "Organic", attributionSource := none,
    utmSource := none, utmMedium := none, utmCampaign := none, utmContent := none,
    utmTerm := none,
    campaignId := "Unknown", campaignName := "", adsetId := "Unknown", adsetName := "",
    adId := "Unknown", adName := "", dateOnly := "2025-07-02",
    hourLabel := some "09:00:00 - 09:59:59" }

/-- The right-only row of the C6 witness fixture after the unmatched-order
block. -/
def c6RightRow : GRow :=
  { campaignId := "Unknown", campaignName := "Unknown Campaign - Organic",
    adsetId := "Unknown", adsetName := "Unknown Adset - Organic", adId := "Unknown",
    adName := "Unknown Ad - Organic", dateOnly := "2025-07-02",
    hourLabel := some "09:00:00 - 09:59:59",
    spend := some 0, cpm := some 0, cpc := some 0, ctr := some 0, purchases := some 0,
    purchaseValue := some 0,
    shopifyOrders := 1, shopifyRevenue := 250, shopifyCogs := 100, totalSkuQuantity := 1,
    channel := "Organic", attributionSource := "", utmSource := "", utmMedium := "",
    utmCampaign := "", utmContent := "", utmTerm := "", orderIds := "O9",
    merge := MergeTag.rightOnly }

/-- The left-only row of the C6 witness fixture. -/
def c6LeftRow : GRow :=
  { campaignId := "800", campaignName := "Solo", adsetId := "801", adsetName := "SoloSet",
    adId := "802", adName := "SoloAd", dateOnly := "2025-07-01",
    hourLabel := some "09:00:00 - 09:59:59",
    spend := some 50, cpm := some 2, cpc := some 1, ctr := some 1, purchases := some 1,
    purchaseValue := some 80,
    shopifyOrders := 0, shopifyRevenue := 0, shopifyCogs := 0, totalSkuQuantity := 0,
    channel := "", attributionSource := "", utmSource := "", utmMedium := "",
    utmCampaign := "", utmContent := "", utmTerm := "", orderIds := "",
    merge := MergeTag.leftOnly }

/-- C6 witness: the theorem applied to the concrete fixture, for one
right-only and one left-only row. -/
theorem claim_c6_outer_join_fill_witness :
    (c6RightRow.spend = some 0 ∧ c6RightRow.cpm = some 0 ∧ c6RightRow.cpc = some 0 ∧
      c6RightRow.ctr = some 0 ∧ c6RightRow.purchases = some 0 ∧
      c6RightRow.purchaseValue = some 0 ∧ c6RightRow.channel ≠ "" ∧
      c6RightRow.campaignName = "Unknown Campaign - " ++ c6RightRow.channel ∧
      c6RightRow.adsetName = "Unknown Adset - " ++ c6RightRow.channel ∧
      c6RightRow.adName = "Unknown Ad - " ++ c6RightRow.channel) ∧
    (c6LeftRow.shopifyOrders = 0 ∧ c6LeftRow.shopifyRevenue = 0 ∧ c6LeftRow.shopifyCogs = 0 ∧
      c6LeftRow.totalSkuQuantity = 0 ∧ c6LeftRow.orderIds = "") := by
  constructor
  · exact (claim_c6_outer_join_fill [c6Ad] [c6Order] (by decide) c6RightRow (by decide)).1 rfl
  · exact (claim_c6_outer_join_fill [c6Ad] [c6Order] (by decide) c6LeftRow (by decide)).2 rfl

/-- C1 witness: the uniqueness invariant applied to the concrete fixture. -/
theorem claim_c1_at_most_one_row_per_key_witness :
    ((create_granular_insights [c1Ad] [c1Order1, c1Order2]).map guardKey).Nodup :=
  claim_c1_at_most_one_row_per_key.1 [c1Ad] [c1Order1, c1Order2]

/-- A joined row with a stored Meta channel and empty UTM fields, for the C7
witness. -/
def c7WitnessRow : GRow :=
  { campaignId := "Unknown", campaignName := "", adsetId := "Unknown", adsetName := "",
    adId := "Unknown", adName := "", dateOnly := "2025-07-02",
    hourLabel := some "09:00:00 - 09:59:59",
    spend := none, cpm := none, cpc := none, ctr := none, purchases := none,
    purchaseValue := none,
    shopifyOrders := 1, shopifyRevenue := 100, shopifyCogs := 10, totalSkuQuantity := 1,
    channel := "Meta", attributionSource := "", utmSource := "", utmMedium := "",
    utmCampaign := "", utmContent := "", utmTerm := "", orderIds := "O7",
    merge := MergeTag.rightOnly }

/-- C7 witness: the amended channel formula applied to a concrete row. -/
theorem claim_c7_enhance_channel_witness :
    (enhanceRow c7WitnessRow).channel =
      (if rowClassifierChannel c7WitnessRow ≠ "Direct/Unknown" ∧
          rowClassifierChannel c7WitnessRow ≠ "Direct" then
        rowClassifierChannel c7WitnessRow
      else c7WitnessRow.channel) :=
  claim_c7_enhance_channel.2.1 c7WitnessRow
